import Mathlib

/-! basic-renderer: framebuffer attachment lifecycle, object library, cube texture loading.

A shallow embedding of `Engine/src/Common/Renderer/Buffer/FrameBuffer.cpp`, of
`Engine/include/Common/Core/Library.h` and of `TextureCube::LoadFromFile` in
`Engine/src/Common/Renderer/Texture/TextureCube.cpp`.
Device calls are recorded, in order, in a call log; the ways a member
function can stop early (a failed `CORE_ASSERT`, a dereferenced null
pointer, an element read past the end of a vector) are the constructors
of `Abort`.
-/

namespace BasicRenderer

/-! ## Data model -/

/-- Dimensionality of a texture resource, as switched on by `FrameBuffer::Invalidate`. -/
inductive TextureType
  | None
  | TEXTURE1D
  | TEXTURE2D
  | TEXTURE3D
  | TEXTURECUBE
  deriving DecidableEq, Repr

/-- Modelled from the spec: the wrap-mode enumeration of the texture header. The sources
name `None`, `ClampToBorder` and `ClampToEdge`; `Other` stands for every further mode. -/
inductive TextureWrap
  | None
  | ClampToBorder
  | ClampToEdge
  | Other (code : Nat)
  deriving DecidableEq, Repr

/-- Modelled from the spec: the filter enumeration of the texture header. The sources name
`Nearest` and `Linear`; `Other` stands for every further mode. -/
inductive TextureFilter
  | None
  | Nearest
  | Linear
  | Other (code : Nat)
  deriving DecidableEq, Repr

/-- Modelled from the spec: the fields of `TextureSpecification` that the framebuffer code
reads and writes (`Format`, `Type`, `Width`, `Height`, `Depth`, `MipMaps`, `Wrap`,
`Filter`). The pixel format enumeration is the parameter `F`. -/
structure TextureSpecification (F : Type) where
  Format : F
  TexType : TextureType
  Width : Nat
  Height : Nat
  Depth : Nat
  MipMaps : Bool
  Wrap : TextureWrap
  Filter : TextureFilter
  deriving DecidableEq, Repr

/-- Modelled from the spec: `TextureSpecification::SetTextureSize(width, height, depth)`,
which overwrites the three size fields and nothing else. -/
def TextureSpecification.SetTextureSize {F : Type} (spec : TextureSpecification F)
    (width height depth : Nat) : TextureSpecification F :=
  { spec with Width := width, Height := height, Depth := depth }

/-- The blueprint list `AttachmentsSpec.TexturesSpec`. -/
structure AttachmentSpecification (F : Type) where
  TexturesSpec : List (TextureSpecification F)
  deriving DecidableEq, Repr

/-- Modelled from the spec: `FrameBufferSpecification` (width, height, depth, sample count,
mip-map flag and the ordered attachment specifications). -/
structure FrameBufferSpecification (F : Type) where
  Width : Nat
  Height : Nat
  Depth : Nat
  Samples : Nat
  MipMaps : Bool
  AttachmentsSpec : AttachmentSpecification F
  deriving DecidableEq, Repr

/-- Modelled from the spec: `FrameBufferSpecification::SetFrameBufferSize(width, height,
depth)`, which overwrites the three size fields and nothing else. -/
def FrameBufferSpecification.SetFrameBufferSize {F : Type} (spec : FrameBufferSpecification F)
    (width height depth : Nat) : FrameBufferSpecification F :=
  { spec with Width := width, Height := height, Depth := depth }

/-- Modelled from the spec: the flags of `BufferState` (color, depth, stencil). -/
structure BufferState where
  colorBufferActive : Bool
  depthBufferActive : Bool
  stencilBufferActive : Bool
  deriving DecidableEq, Repr

/-- Modelled from the spec: what the headers outside the sources declare and the framebuffer
code uses: the sentinel `TextureFormat::None`, the predicate `utils::OpenGL::IsDepthFormat`
(false on the sentinel), `utils::OpenGL::TextureFormatToChannelNumber`, and the values of a
default-constructed `TextureSpecification` and `BufferState`. -/
structure Headers (F : Type) where
  None : F
  IsDepthFormat : F → Bool
  none_not_depth : IsDepthFormat None = false
  TextureFormatToChannelNumber : F → Int
  DefaultSpec : TextureSpecification F
  default_format : DefaultSpec.Format = None
  DefaultBufferState : BufferState

/-- The concrete texture class behind a `std::shared_ptr<Texture>`; a 2D texture carries the
sample count it was constructed with. -/
inductive TextureKind
  | Texture1D
  | Texture2D (samples : Nat)
  | Texture3D
  | TextureCube
  deriving DecidableEq, Repr

/-- Modelled from the spec: a texture resource. `m_ID` is 0 until `CreateTexture` allocates
device storage for it. -/
structure Texture (F : Type) where
  Kind : TextureKind
  m_Spec : TextureSpecification F
  m_ID : Nat
  deriving DecidableEq, Repr

/-- First argument of `glBindFramebuffer`. -/
inductive FramebufferTarget
  | GL_FRAMEBUFFER
  | GL_DRAW_FRAMEBUFFER
  | GL_READ_FRAMEBUFFER
  deriving DecidableEq, Repr

/-- Buffer selectors passed to `glDrawBuffer`, `glReadBuffer` and `glDrawBuffers`;
`GL_COLOR_ATTACHMENT i` is `GL_COLOR_ATTACHMENT0 + i`. -/
inductive ColorBuffer
  | GL_NONE
  | GL_BACK
  | GL_COLOR_ATTACHMENT (i : Nat)
  deriving DecidableEq, Repr

/-- Attachment points of a framebuffer object: a color slot, or the slot that
`utils::OpenGL::TextureFormatToOpenGLDepthType` picks for a depth format. -/
inductive AttachmentPoint (F : Type)
  | GL_COLOR_ATTACHMENT (i : Nat)
  | TextureFormatToOpenGLDepthType (format : F)
  deriving DecidableEq, Repr

/-- Texture targets of the attach calls: the value of `Texture::TextureTarget()` for a
resource of the given class, or `GL_TEXTURE_CUBE_MAP_POSITIVE_X + face`. -/
inductive TexTarget
  | TextureTarget (kind : TextureKind)
  | GL_TEXTURE_CUBE_MAP_POSITIVE_X (face : Nat)
  deriving DecidableEq, Repr

/-- One entry of the device call log: a graphics call, a texture-resource operation, a
scratch-buffer or encoder call, or a logged warning. -/
inductive Call (F : Type)
  | CORE_WARN (msg : String)
  | glGenFramebuffers (id : Nat)
  | glDeleteFramebuffers (id : Nat)
  | glBindFramebuffer (target : FramebufferTarget) (id : Nat)
  | glViewport (x y width height : Nat)
  | glDrawBuffer (buf : ColorBuffer)
  | glReadBuffer (buf : ColorBuffer)
  | glDrawBuffers (n : Nat) (bufs : List ColorBuffer)
  | glFramebufferTexture1D (attachment : AttachmentPoint F) (textarget : TexTarget)
      (texture level : Nat)
  | glFramebufferTexture2D (attachment : AttachmentPoint F) (textarget : TexTarget)
      (texture level : Nat)
  | glFramebufferTexture3D (attachment : AttachmentPoint F) (textarget : TexTarget)
      (texture level layer : Nat)
  | glBlitFramebuffer (srcX0 srcY0 srcX1 srcY1 dstX0 dstY0 dstX1 dstY1 : Nat)
      (mask : BufferState) (filter : TextureFilter)
  | glCheckFramebufferStatus
  | glGenerateMipmap (target : TexTarget)
  | glPixelStorei_PACK_ALIGNMENT (param : Int)
  | glReadPixels (x y width height : Nat) (format : F)
  | CreateTexture (kind : TextureKind) (spec : TextureSpecification F) (id : Nat)
  | ReleaseTexture (id : Nat)
  | BindTexture (id : Nat)
  | AllocateBufferForFormat (format : F) (size : Int)
  | DeallocateBufferForFormat (format : F)
  | stbi_flip_vertically_on_write (flag : Bool)
  | stbi_write_png (path : String) (w h : Nat) (comp stride : Int)
  | stbi_write_jpg (path : String) (w h : Nat) (comp : Int) (quality : Nat)
  | stbi_write_hdr (path : String) (w h : Nat) (comp : Int)
  deriving DecidableEq, Repr

/-- The graphics device as the framebuffer code sees it: the calls issued so far (oldest
first), the number of object names handed out so far, and the answer the driver gives to
`glCheckFramebufferStatus` (true for `GL_FRAMEBUFFER_COMPLETE`) after a given call history. -/
structure Device (F : Type) where
  calls : List (Call F)
  names : Nat
  complete : List (Call F) → Bool

/-- Appends one call to the log. -/
def Device.call {F : Type} (dev : Device F) (c : Call F) : Device F :=
  { dev with calls := dev.calls ++ [c] }

/-- Hands out an unused object name; names are never 0. -/
def Device.genName {F : Type} (dev : Device F) : Nat × Device F :=
  (dev.names + 1, { dev with names := dev.names + 1 })

/-- The ways a member function stops before its end: a failed `CORE_ASSERT` (fatal, with
its message), a dereferenced null pointer, or a vector element read past the end. A function
that stops this way returns the reason together with the device as it is at that moment. -/
inductive Abort
  | Fatal (msg : String)
  | NullDereference
  | OutOfRange
  deriving DecidableEq, Repr

/-- The part of a `std::filesystem::path` that `SaveAttachment` uses: the whole path as a
string and the result of `extension()`. -/
structure Path where
  string : String
  extension : String
  deriving DecidableEq, Repr

/-- The members of `FrameBuffer`. A null `std::shared_ptr` is `none`. -/
structure FrameBuffer (F : Type) where
  m_ID : Nat
  m_Spec : FrameBufferSpecification F
  m_ColorAttachments : List (Option (Texture F))
  m_DepthAttachment : Option (Texture F)
  m_ColorAttachmentsSpec : List (TextureSpecification F)
  m_DepthAttachmentSpec : TextureSpecification F
  m_ActiveBuffers : BufferState
  deriving DecidableEq, Repr

/-- Modelled from the spec: `Texture::CreateTexture(nullptr)`, which allocates device storage
for the resource under a fresh name. -/
def Texture.CreateTexture {F : Type} (t : Texture F) (dev : Device F) : Texture F × Device F :=
  let (id, dev) := dev.genName
  ({ t with m_ID := id }, dev.call (Call.CreateTexture t.Kind t.m_Spec id))

/-- Value of `Texture::TextureTarget()`. -/
def Texture.TextureTarget {F : Type} (t : Texture F) : TexTarget :=
  TexTarget.TextureTarget t.Kind

/-! ## Constructor -/

section Code

variable {F : Type} [DecidableEq F]

/-- Body of the constructor loop for one element of `m_Spec.AttachmentsSpec.TexturesSpec`:
returns the updated element and the updated members. -/
def defineAttachment (H : Headers F) (fb : FrameBuffer F) (spec : TextureSpecification F) :
    TextureSpecification F × FrameBuffer F :=
  let spec := { spec with
    Width := fb.m_Spec.Width, Height := fb.m_Spec.Height, MipMaps := fb.m_Spec.MipMaps }
  let spec := { spec with
    Wrap := if spec.Wrap ≠ TextureWrap.None then spec.Wrap
            else if H.IsDepthFormat spec.Format then TextureWrap.ClampToBorder
            else TextureWrap.ClampToEdge }
  if H.IsDepthFormat spec.Format then
    let spec := { spec with Filter := TextureFilter.Nearest }
    (spec, { fb with
      m_DepthAttachmentSpec := spec,
      m_ActiveBuffers := { fb.m_ActiveBuffers with depthBufferActive := true } })
  else
    let spec := { spec with Filter := TextureFilter.Linear }
    (spec, { fb with
      m_ColorAttachmentsSpec := fb.m_ColorAttachmentsSpec ++ [spec],
      m_ActiveBuffers := { fb.m_ActiveBuffers with colorBufferActive := true } })

/-- The constructor loop over the blueprint list, front to back: returns the list with every
element updated in place and the updated members. -/
def defineAttachments (H : Headers F) :
    List (TextureSpecification F) → FrameBuffer F → List (TextureSpecification F) × FrameBuffer F
  | [], fb => ([], fb)
  | spec :: rest, fb =>
    let (spec, fb) := defineAttachment H fb spec
    let (rest, fb) := defineAttachments H rest fb
    (spec :: rest, fb)

/-- Members right after the member initialiser `m_Spec(spec)`: no device object, no
attachment resources, no color specifications, a default depth specification. -/
def FrameBuffer.initial (H : Headers F) (spec : FrameBufferSpecification F) : FrameBuffer F :=
  { m_ID := 0
    m_Spec := spec
    m_ColorAttachments := []
    m_DepthAttachment := none
    m_ColorAttachmentsSpec := []
    m_DepthAttachmentSpec := H.DefaultSpec
    m_ActiveBuffers := H.DefaultBufferState }

/-- Lines 20-51 of the constructor: the members when `Invalidate` is called. -/
def FrameBuffer.define (H : Headers F) (spec : FrameBufferSpecification F) : FrameBuffer F :=
  let (specs, fb) :=
    defineAttachments H spec.AttachmentsSpec.TexturesSpec (FrameBuffer.initial H spec)
  { fb with m_Spec := { fb.m_Spec with AttachmentsSpec := { TexturesSpec := specs } } }

/-- The value the constructor loop leaves in one blueprint element, written out field by
field: format, dimensionality and depth are the element's own; width, height and mip-map flag
are those of the framebuffer specification `g`; a wrap mode other than `None` is kept and
`None` is replaced according to the format; the filter is chosen by the format. -/
def definedSpec (H : Headers F) (g : FrameBufferSpecification F) (s : TextureSpecification F) :
    TextureSpecification F :=
  { Format := s.Format
    TexType := s.TexType
    Width := g.Width
    Height := g.Height
    Depth := s.Depth
    MipMaps := g.MipMaps
    Wrap := if s.Wrap ≠ TextureWrap.None then s.Wrap
            else if H.IsDepthFormat s.Format then TextureWrap.ClampToBorder
            else TextureWrap.ClampToEdge
    Filter := if H.IsDepthFormat s.Format then TextureFilter.Nearest else TextureFilter.Linear }

/-! ## Invalidate -/

/-- The loop of `ReleaseFramebuffer` over `m_ColorAttachments`. -/
def releaseColorAttachments :
    List (Option (Texture F)) → Device F → Except (Abort × Device F) (Device F)
  | [], dev => .ok dev
  | none :: _, dev => .error (Abort.NullDereference, dev)
  | some attachment :: rest, dev =>
    releaseColorAttachments rest (dev.call (Call.ReleaseTexture attachment.m_ID))

/-- The member function `ReleaseFramebuffer`: deletes the device object, then calls
`ReleaseTexture` through `m_DepthAttachment` and through every color attachment. -/
def FrameBuffer.ReleaseFramebuffer (fb : FrameBuffer F) (dev : Device F) :
    Except (Abort × Device F) (Device F) :=
  let dev := dev.call (Call.glDeleteFramebuffers fb.m_ID)
  match fb.m_DepthAttachment with
  | none => .error (Abort.NullDereference, dev)
  | some depth =>
    releaseColorAttachments fb.m_ColorAttachments (dev.call (Call.ReleaseTexture depth.m_ID))

/-- The lambda `createTexture` of `Invalidate`: a resource of the class matching the
dimensionality, or a null pointer. -/
def createTexture (spec : TextureSpecification F) (samples : Nat) : Option (Texture F) :=
  match spec.TexType with
  | TextureType.TEXTURE1D => some { Kind := TextureKind.Texture1D, m_Spec := spec, m_ID := 0 }
  | TextureType.TEXTURE2D =>
    some { Kind := TextureKind.Texture2D samples, m_Spec := spec, m_ID := 0 }
  | TextureType.TEXTURE3D => some { Kind := TextureKind.Texture3D, m_Spec := spec, m_ID := 0 }
  | TextureType.TEXTURECUBE => some { Kind := TextureKind.TextureCube, m_Spec := spec, m_ID := 0 }
  | TextureType.None => none

/-- The second `switch (type)` of the color loop: the attach call for slot `i`. Every call
targets `GL_FRAMEBUFFER`. -/
def attachColor (i : Nat) (t : Texture F) (type : TextureType) (dev : Device F) : Device F :=
  match type with
  | TextureType.TEXTURE1D =>
    dev.call (Call.glFramebufferTexture1D (AttachmentPoint.GL_COLOR_ATTACHMENT i)
      t.TextureTarget t.m_ID 0)
  | TextureType.TEXTURE2D =>
    dev.call (Call.glFramebufferTexture2D (AttachmentPoint.GL_COLOR_ATTACHMENT i)
      t.TextureTarget t.m_ID 0)
  | TextureType.TEXTURE3D =>
    dev.call (Call.glFramebufferTexture3D (AttachmentPoint.GL_COLOR_ATTACHMENT i)
      t.TextureTarget t.m_ID 0 0)
  | TextureType.TEXTURECUBE =>
    dev.call (Call.glFramebufferTexture2D (AttachmentPoint.GL_COLOR_ATTACHMENT i)
      t.TextureTarget t.m_ID 0)
  | TextureType.None => dev

/-- Message of the warning in the color loop. -/
def warnColorAttachment : String := "Data in color attachment not properly defined"

/-- The color loop of `Invalidate`, from index `i` on; the first argument is
`m_ColorAttachmentsSpec` from index `i` on (the loop bound `m_ColorAttachments.size()` is the
number of specifications, by the `resize` before the loop). -/
def invalidateColors (H : Headers F) (samples : Nat) :
    List (TextureSpecification F) → Nat → List (Option (Texture F)) → Device F →
      List (Option (Texture F)) × Device F
  | [], _, attachments, dev => (attachments, dev)
  | spec :: rest, i, attachments, dev =>
    let attachments := attachments.set i (createTexture spec samples)
    match createTexture spec samples with
    | none =>
      invalidateColors H samples rest (i + 1) attachments
        (dev.call (Call.CORE_WARN warnColorAttachment))
    | some t =>
      if spec.Format = H.None ∨ H.IsDepthFormat spec.Format = true then
        invalidateColors H samples rest (i + 1) attachments
          (dev.call (Call.CORE_WARN warnColorAttachment))
      else
        let (t, dev) := t.CreateTexture dev
        let attachments := attachments.set i (some t)
        let dev := attachColor i t spec.TexType dev
        invalidateColors H samples rest (i + 1) attachments dev

/-- The call `std::vector::resize(n)` on a vector of shared pointers: cuts the vector to `n`
elements or pads it with null pointers. -/
def resize (attachments : List (Option (Texture F))) (n : Nat) : List (Option (Texture F)) :=
  attachments.take n ++ List.replicate (n - attachments.length) none

/-- First block of `Invalidate`: when a device object exists, release it and drop the
attachment resources. -/
def FrameBuffer.releaseExisting (fb : FrameBuffer F) (dev : Device F) :
    Except (Abort × Device F) (FrameBuffer F × Device F) :=
  if fb.m_ID ≠ 0 then
    match fb.ReleaseFramebuffer dev with
    | .error e => .error e
    | .ok dev => .ok ({ fb with m_ColorAttachments := [], m_DepthAttachment := none }, dev)
  else .ok (fb, dev)

/-- The block "Color attachments" of `Invalidate`. -/
def FrameBuffer.invalidateColorBlock (H : Headers F) (fb : FrameBuffer F) (dev : Device F) :
    FrameBuffer F × Device F :=
  if fb.m_ColorAttachmentsSpec ≠ [] then
    let attachments := resize fb.m_ColorAttachments fb.m_ColorAttachmentsSpec.length
    let (attachments, dev) :=
      invalidateColors H fb.m_Spec.Samples fb.m_ColorAttachmentsSpec 0 attachments dev
    ({ fb with m_ColorAttachments := attachments }, dev)
  else (fb, dev)

/-- The block "Depth attachment" of `Invalidate`. -/
def FrameBuffer.invalidateDepthBlock (H : Headers F) (fb : FrameBuffer F) (dev : Device F) :
    FrameBuffer F × Device F :=
  if fb.m_DepthAttachmentSpec.Format ≠ H.None ∧
      H.IsDepthFormat fb.m_DepthAttachmentSpec.Format = true then
    let t : Texture F :=
      { Kind := TextureKind.Texture2D fb.m_Spec.Samples, m_Spec := fb.m_DepthAttachmentSpec,
        m_ID := 0 }
    let (t, dev) := t.CreateTexture dev
    let dev := dev.call (Call.glFramebufferTexture2D
      (AttachmentPoint.TextureFormatToOpenGLDepthType t.m_Spec.Format) t.TextureTarget t.m_ID 0)
    ({ fb with m_DepthAttachment := some t }, dev)
  else (fb, dev)

/-- Message of the assertion on the number of color attachments. -/
def fatalTooManyAttachments : String := "Using more than 4 color attachments in the Framebuffer!"

/-- Message of the completeness assertion. -/
def fatalIncomplete : String := "Framebuffer is incomplete!"

/-- The local array `buffers` of `Invalidate`. -/
def drawBuffers : List ColorBuffer :=
  [ColorBuffer.GL_COLOR_ATTACHMENT 0, ColorBuffer.GL_COLOR_ATTACHMENT 1,
   ColorBuffer.GL_COLOR_ATTACHMENT 2, ColorBuffer.GL_COLOR_ATTACHMENT 3]

/-- The block "Draw the color attachments" of `Invalidate`. -/
def FrameBuffer.configureDrawBuffers (fb : FrameBuffer F) (dev : Device F) :
    Except (Abort × Device F) (Device F) :=
  if fb.m_ColorAttachments.length > 1 then
    if fb.m_ColorAttachments.length ≤ 4 then
      .ok (dev.call (Call.glDrawBuffers fb.m_ColorAttachments.length drawBuffers))
    else .error (Abort.Fatal fatalTooManyAttachments, dev)
  else if fb.m_ColorAttachments.isEmpty then
    .ok (dev.call (Call.glDrawBuffer ColorBuffer.GL_NONE))
  else .ok dev

/-- Last two statements of `Invalidate`: the completeness assertion and the unbind. -/
def checkComplete (dev : Device F) : Except (Abort × Device F) (Device F) :=
  let dev := dev.call Call.glCheckFramebufferStatus
  if dev.complete dev.calls then
    .ok (dev.call (Call.glBindFramebuffer FramebufferTarget.GL_FRAMEBUFFER 0))
  else .error (Abort.Fatal fatalIncomplete, dev)

/-- The member function `Invalidate`. -/
def FrameBuffer.Invalidate (H : Headers F) (fb : FrameBuffer F) (dev : Device F) :
    Except (Abort × Device F) (FrameBuffer F × Device F) :=
  match fb.releaseExisting dev with
  | .error e => .error e
  | .ok (fb, dev) =>
    let (id, dev) := dev.genName
    let dev := dev.call (Call.glGenFramebuffers id)
    let fb := { fb with m_ID := id }
    let dev := dev.call (Call.glBindFramebuffer FramebufferTarget.GL_FRAMEBUFFER fb.m_ID)
    let (fb, dev) := fb.invalidateColorBlock H dev
    let (fb, dev) := fb.invalidateDepthBlock H dev
    match fb.configureDrawBuffers dev with
    | .error e => .error e
    | .ok dev =>
      match checkComplete dev with
      | .error e => .error e
      | .ok dev => .ok (fb, dev)

/-- The constructor `FrameBuffer::FrameBuffer(spec)`. -/
def FrameBuffer.ctor (H : Headers F) (spec : FrameBufferSpecification F) (dev : Device F) :
    Except (Abort × Device F) (FrameBuffer F × Device F) :=
  (FrameBuffer.define H spec).Invalidate H dev

/-- The member function `Resize`. -/
def FrameBuffer.Resize (H : Headers F) (fb : FrameBuffer F) (width height depth : Nat)
    (dev : Device F) : Except (Abort × Device F) (FrameBuffer F × Device F) :=
  let fb := { fb with m_Spec := fb.m_Spec.SetFrameBufferSize width height depth }
  let texturesSpec := fb.m_Spec.AttachmentsSpec.TexturesSpec.map
    (fun spec => TextureSpecification.SetTextureSize spec width height depth)
  let fb := { fb with
    m_Spec := { fb.m_Spec with AttachmentsSpec := { TexturesSpec := texturesSpec } } }
  let fb := { fb with m_ColorAttachmentsSpec :=
    fb.m_ColorAttachmentsSpec.map (fun spec => TextureSpecification.SetTextureSize spec width height depth) }
  let fb := { fb with m_DepthAttachmentSpec :=
    fb.m_DepthAttachmentSpec.SetTextureSize width height depth }
  fb.Invalidate H dev

/-- The member function `AdjustSampleCount`. -/
def FrameBuffer.AdjustSampleCount (H : Headers F) (fb : FrameBuffer F) (samples : Nat)
    (dev : Device F) : Except (Abort × Device F) (FrameBuffer F × Device F) :=
  let fb := { fb with m_Spec := { fb.m_Spec with Samples := samples } }
  fb.Invalidate H dev

/-- Runs `Invalidate` `n` times in a row, stopping at the first call that does not complete. -/
def FrameBuffer.InvalidateTimes (H : Headers F) :
    Nat → FrameBuffer F → Device F → Except (Abort × Device F) (FrameBuffer F × Device F)
  | 0, fb, dev => .ok (fb, dev)
  | n + 1, fb, dev =>
    match fb.Invalidate H dev with
    | .error e => .error e
    | .ok (fb, dev) => FrameBuffer.InvalidateTimes H n fb dev

/-! ## Binding -/

/-- The viewport call shared by the bind functions. -/
def FrameBuffer.viewport (fb : FrameBuffer F) : Call F :=
  Call.glViewport 0 0 fb.m_Spec.Width (if fb.m_Spec.Height > 0 then fb.m_Spec.Height else 1)

/-- The member function `Bind`. -/
def FrameBuffer.Bind (fb : FrameBuffer F) (dev : Device F) : Device F :=
  (dev.call (Call.glBindFramebuffer FramebufferTarget.GL_FRAMEBUFFER fb.m_ID)).call fb.viewport

/-- The member function `BindForDrawAttachment`. -/
def FrameBuffer.BindForDrawAttachment (fb : FrameBuffer F) (index : Nat) (dev : Device F) :
    Device F :=
  (((dev.call (Call.glBindFramebuffer FramebufferTarget.GL_DRAW_FRAMEBUFFER fb.m_ID)).call
    fb.viewport).call (Call.glDrawBuffer (ColorBuffer.GL_COLOR_ATTACHMENT index)))

/-- The member function `BindForReadAttachment`. -/
def FrameBuffer.BindForReadAttachment (fb : FrameBuffer F) (index : Nat) (dev : Device F) :
    Device F :=
  (dev.call (Call.glBindFramebuffer FramebufferTarget.GL_READ_FRAMEBUFFER fb.m_ID)).call
    (Call.glReadBuffer (ColorBuffer.GL_COLOR_ATTACHMENT index))

/-- Message of the warning of `BindForDrawAttachmentCube`. -/
def warnAttachmentType : String := "Trying to bind for drawing an incorrect attachment type!"

/-- The member function `BindForDrawAttachmentCube`; it is `const`, so the members are
unchanged and only the device is returned. -/
def FrameBuffer.BindForDrawAttachmentCube (fb : FrameBuffer F) (index face level : Nat)
    (dev : Device F) : Except (Abort × Device F) (Device F) :=
  match fb.m_ColorAttachmentsSpec[index]? with
  | none => .error (Abort.OutOfRange, dev)
  | some spec =>
    if spec.TexType ≠ TextureType.TEXTURECUBE then
      .ok (dev.call (Call.CORE_WARN warnAttachmentType))
    else
      let dev := dev.call (Call.glBindFramebuffer FramebufferTarget.GL_DRAW_FRAMEBUFFER fb.m_ID)
      let dev := dev.call fb.viewport
      match fb.m_ColorAttachments[index]? with
      | none => .error (Abort.OutOfRange, dev)
      | some none => .error (Abort.NullDereference, dev)
      | some (some attachment) =>
        .ok (dev.call (Call.glFramebufferTexture2D (AttachmentPoint.GL_COLOR_ATTACHMENT 0)
          (TexTarget.GL_TEXTURE_CUBE_MAP_POSITIVE_X face) attachment.m_ID level))

/-- The loop of `Unbind` over `m_ColorAttachments`. -/
def generateMipmaps : List (Option (Texture F)) → Device F → Except (Abort × Device F) (Device F)
  | [], dev => .ok dev
  | none :: _, dev => .error (Abort.NullDereference, dev)
  | some attachment :: rest, dev =>
    generateMipmaps rest
      ((dev.call (Call.BindTexture attachment.m_ID)).call
        (Call.glGenerateMipmap attachment.TextureTarget))

/-- The member function `Unbind`. -/
def FrameBuffer.Unbind (fb : FrameBuffer F) (genMipMaps : Bool) (dev : Device F) :
    Except (Abort × Device F) (Device F) :=
  match (if fb.m_Spec.MipMaps && genMipMaps then generateMipmaps fb.m_ColorAttachments dev
         else .ok dev) with
  | .error e => .error e
  | .ok dev => .ok (dev.call (Call.glBindFramebuffer FramebufferTarget.GL_FRAMEBUFFER 0))

/-! ## Blit -/

/-- Message of the assertion of `Blit`. -/
def fatalBlitUndefined : String := "Trying to blit undefined framebuffer(s)"

/-- The static member function `Blit`; a null `std::shared_ptr<FrameBuffer>` is `none`. The
mask argument of the copy is `BufferStateToOpenGLMask(buffersActive)` and its filter argument
`TextureFilterToOpenGLType(filter, false)`; the log keeps the values they are computed from. -/
def FrameBuffer.Blit (src dst : Option (FrameBuffer F)) (filter : TextureFilter)
    (buffersActive : BufferState) (dev : Device F) : Except (Abort × Device F) (Device F) :=
  match src, dst with
  | some src, some dst =>
    let dev := dev.call (Call.glBindFramebuffer FramebufferTarget.GL_READ_FRAMEBUFFER src.m_ID)
    let dev := dev.call (Call.glBindFramebuffer FramebufferTarget.GL_DRAW_FRAMEBUFFER dst.m_ID)
    let dev := dev.call (Call.glBlitFramebuffer 0 0 src.m_Spec.Width src.m_Spec.Height
      0 0 dst.m_Spec.Width dst.m_Spec.Height buffersActive filter)
    .ok (dev.call (Call.glBindFramebuffer FramebufferTarget.GL_FRAMEBUFFER 0))
  | _, _ => .error (Abort.Fatal fatalBlitUndefined, dev)

/-! ## SaveAttachment -/

/-- Message of the channel-count assertion of `SaveAttachment`. -/
def fatalChannels : String := "Invalid number of channels in the color attachment!"

/-- Message of the warning of `SaveAttachment`. -/
def warnFileFormat : String := "Unsupported file format!"

/-- The call `std::transform(begin, end, begin, ::tolower)` on a string: every character is
replaced by its lower-case form. -/
def toLower (text : String) : String :=
  String.mk (text.data.map Char.toLower)

/-- In the words of the spec: whether two strings are equal when the case of their letters is
ignored. -/
def equalIgnoringCase (a b : String) : Bool :=
  a.data.map Char.toLower == b.data.map Char.toLower

/-- The value that a 32-bit `int` holds after a product: the exact result reduced modulo
2^32 into the range from -2^31 to 2^31 - 1. (The reduction is the same whether the other
factor is a signed or an unsigned 32-bit integer.) -/
def wrapInt32 (x : Int) : Int :=
  (x + 2147483648) % 4294967296 - 2147483648

/-- Whether a log entry allocates the scratch buffer. -/
def Call.isAllocation : Call F → Bool
  | Call.AllocateBufferForFormat _ _ => true
  | _ => false

/-- Whether a log entry frees the scratch buffer. -/
def Call.isDeallocation : Call F → Bool
  | Call.DeallocateBufferForFormat _ => true
  | _ => false

/-- Whether a log entry is a call of one of the three image encoders. -/
def Call.isEncoder : Call F → Bool
  | Call.stbi_write_png _ _ _ _ _ => true
  | Call.stbi_write_jpg _ _ _ _ _ => true
  | Call.stbi_write_hdr _ _ _ _ => true
  | _ => false

/-- The encoder dispatch at the end of `SaveAttachment`, on the lower-cased extension. -/
def writeImage (extension : String) (path : Path) (width height : Nat) (channels stride : Int)
    (dev : Device F) : Device F :=
  if extension = ".png" then
    dev.call (Call.stbi_write_png path.string width height channels stride)
  else if extension = ".jpg" ∨ extension = ".jpeg" then
    dev.call (Call.stbi_write_jpg path.string width height channels 100)
  else if extension = ".hdr" then
    dev.call (Call.stbi_write_hdr path.string width height channels)
  else dev.call (Call.CORE_WARN warnFileFormat)

/-- The member function `SaveAttachment`. `stride` and `bufferSize` are 32-bit `int`
variables, so each product is reduced by `wrapInt32`. -/
def FrameBuffer.SaveAttachment (H : Headers F) (fb : FrameBuffer F) (index : Nat) (path : Path)
    (dev : Device F) : Except (Abort × Device F) (Device F) :=
  match fb.m_ColorAttachmentsSpec[index]? with
  | none => .error (Abort.OutOfRange, dev)
  | some spec =>
    let format := spec.Format
    let channels := H.TextureFormatToChannelNumber format
    let extension := toLower path.extension
    if ¬ (channels > 0 ∧ channels ≤ 4) then .error (Abort.Fatal fatalChannels, dev)
    else
      let stride := wrapInt32 (channels * (fb.m_Spec.Width : Int))
      let bufferSize := wrapInt32 (stride * (fb.m_Spec.Height : Int))
      let dev := dev.call (Call.AllocateBufferForFormat format bufferSize)
      let dev := fb.BindForReadAttachment index dev
      let dev := dev.call (Call.glPixelStorei_PACK_ALIGNMENT channels)
      let dev := dev.call (Call.glReadPixels 0 0 fb.m_Spec.Width fb.m_Spec.Height format)
      let dev := dev.call (Call.stbi_flip_vertically_on_write true)
      let dev := writeImage extension path fb.m_Spec.Width fb.m_Spec.Height channels stride dev
      .ok (dev.call (Call.DeallocateBufferForFormat format))

/-! ## Reading the call log -/

/-- In the words of the spec: a color entry is skipped when its resource is null (its
dimensionality is `None`), when its format is `None`, or when its format is a depth format. -/
def skippedEntry (H : Headers F) (spec : TextureSpecification F) : Bool :=
  decide (spec.TexType = TextureType.None) || decide (spec.Format = H.None) ||
    H.IsDepthFormat spec.Format

/-- The color slot that a call attaches a texture to, when the call is an attach call on a
color slot. -/
def Call.colorSlot : Call F → Option Nat
  | Call.glFramebufferTexture1D (AttachmentPoint.GL_COLOR_ATTACHMENT i) _ _ _ => some i
  | Call.glFramebufferTexture2D (AttachmentPoint.GL_COLOR_ATTACHMENT i) _ _ _ => some i
  | Call.glFramebufferTexture3D (AttachmentPoint.GL_COLOR_ATTACHMENT i) _ _ _ _ => some i
  | _ => none

/-- Whether a log entry is a warning. -/
def Call.isWarning : Call F → Bool
  | Call.CORE_WARN _ => true
  | _ => false

/-- The specification that a call allocates texture storage for, when the call is
`CreateTexture`. -/
def Call.allocated : Call F → Option (TextureSpecification F)
  | Call.CreateTexture _ spec _ => some spec
  | _ => none

end Code

/-! ## A concrete instance for worked examples -/

/-- Modelled from the spec: the pixel formats the spec names (the sentinel, one color format
and one depth-stencil format). -/
inductive TextureFormat
  | None
  | RGBA8
  | Depth24Stencil8
  deriving DecidableEq, Repr

/-- Modelled from the spec: the depth-format predicate on the formats above. -/
def TextureFormat.IsDepthFormat : TextureFormat → Bool
  | TextureFormat.Depth24Stencil8 => true
  | _ => false

/-- Modelled from the spec: channel counts of the formats above, four for RGBA8 and none
for a format that is not a color format. -/
def TextureFormat.ChannelNumber : TextureFormat → Int
  | TextureFormat.RGBA8 => 4
  | _ => 0

/-- Modelled from the spec: a default-constructed texture specification (no format, no wrap
mode, zero size). -/
def TextureFormat.DefaultSpec : TextureSpecification TextureFormat :=
  { Format := TextureFormat.None, TexType := TextureType.TEXTURE2D, Width := 0, Height := 0,
    Depth := 0, MipMaps := false, Wrap := TextureWrap.None, Filter := TextureFilter.None }

/-- The header declarations instantiated at `TextureFormat`. -/
def TextureFormat.headers : Headers TextureFormat :=
  { None := TextureFormat.None
    IsDepthFormat := TextureFormat.IsDepthFormat
    none_not_depth := rfl
    TextureFormatToChannelNumber := TextureFormat.ChannelNumber
    DefaultSpec := TextureFormat.DefaultSpec
    default_format := rfl
    DefaultBufferState :=
      { colorBufferActive := false, depthBufferActive := false, stencilBufferActive := false } }

/-- An attachment specification given by its format and dimensionality alone. -/
def TextureFormat.attachment (format : TextureFormat) (type : TextureType) :
    TextureSpecification TextureFormat :=
  { TextureFormat.DefaultSpec with Format := format, TexType := type }

/-- The blueprint of the spec's example scenario: 800 by 600, one sample, no mip-maps,
attachments RGBA8 and Depth24Stencil8. -/
def exampleSpec : FrameBufferSpecification TextureFormat :=
  { Width := 800, Height := 600, Depth := 0, Samples := 1, MipMaps := false
    AttachmentsSpec := { TexturesSpec :=
      [TextureFormat.attachment TextureFormat.RGBA8 TextureType.TEXTURE2D,
       TextureFormat.attachment TextureFormat.Depth24Stencil8 TextureType.TEXTURE2D] } }

/-- A blueprint of depth 16 with one three-dimensional RGBA8 attachment and a depth
attachment. -/
def volumeSpec : FrameBufferSpecification TextureFormat :=
  { Width := 800, Height := 600, Depth := 16, Samples := 1, MipMaps := false
    AttachmentsSpec := { TexturesSpec :=
      [TextureFormat.attachment TextureFormat.RGBA8 TextureType.TEXTURE3D,
       TextureFormat.attachment TextureFormat.Depth24Stencil8 TextureType.TEXTURE2D] } }

/-- A blueprint with four RGBA8 attachments and one attachment of the sentinel format
`None`. -/
def fourColorOneNoneSpec : FrameBufferSpecification TextureFormat :=
  { Width := 800, Height := 600, Depth := 0, Samples := 1, MipMaps := false
    AttachmentsSpec := { TexturesSpec :=
      [TextureFormat.attachment TextureFormat.RGBA8 TextureType.TEXTURE2D,
       TextureFormat.attachment TextureFormat.RGBA8 TextureType.TEXTURE2D,
       TextureFormat.attachment TextureFormat.RGBA8 TextureType.TEXTURE2D,
       TextureFormat.attachment TextureFormat.RGBA8 TextureType.TEXTURE2D,
       TextureFormat.attachment TextureFormat.None TextureType.TEXTURE2D] } }

/-- A device with an empty call log whose driver reports every framebuffer complete. -/
def exampleDevice : Device TextureFormat :=
  { calls := [], names := 0, complete := fun _ => true }

/-- The framebuffer and the device after the constructor has run on `volumeSpec` and the
example device. -/
def volumeBuilt : FrameBuffer TextureFormat × Device TextureFormat :=
  match FrameBuffer.ctor TextureFormat.headers volumeSpec exampleDevice with
  | .ok built => built
  | .error _ => (FrameBuffer.define TextureFormat.headers volumeSpec, exampleDevice)

/-- The framebuffer and the device after the constructor has run on the example blueprint
and the example device. -/
def exampleBuilt : FrameBuffer TextureFormat × Device TextureFormat :=
  match FrameBuffer.ctor TextureFormat.headers exampleSpec exampleDevice with
  | .ok built => built
  | .error _ => (FrameBuffer.define TextureFormat.headers exampleSpec, exampleDevice)

/-- An output path whose extension is written in upper case. -/
def examplePath : Path :=
  { string := "frame.PNG", extension := ".PNG" }

/-- A blueprint with five RGBA8 attachments. -/
def fiveColorSpec : FrameBufferSpecification TextureFormat :=
  { Width := 800, Height := 600, Depth := 0, Samples := 1, MipMaps := false
    AttachmentsSpec := { TexturesSpec :=
      [TextureFormat.attachment TextureFormat.RGBA8 TextureType.TEXTURE2D,
       TextureFormat.attachment TextureFormat.RGBA8 TextureType.TEXTURE2D,
       TextureFormat.attachment TextureFormat.RGBA8 TextureType.TEXTURE2D,
       TextureFormat.attachment TextureFormat.RGBA8 TextureType.TEXTURE2D,
       TextureFormat.attachment TextureFormat.RGBA8 TextureType.TEXTURE2D] } }

/-- A blueprint with a cube attachment, a two-dimensional attachment and a depth
attachment. -/
def cubeSpec : FrameBufferSpecification TextureFormat :=
  { Width := 512, Height := 512, Depth := 0, Samples := 1, MipMaps := true
    AttachmentsSpec := { TexturesSpec :=
      [TextureFormat.attachment TextureFormat.RGBA8 TextureType.TEXTURECUBE,
       TextureFormat.attachment TextureFormat.RGBA8 TextureType.TEXTURE2D,
       TextureFormat.attachment TextureFormat.Depth24Stencil8 TextureType.TEXTURE2D] } }

/-- The framebuffer and the device after the constructor has run on `cubeSpec` and the
example device. -/
def cubeBuilt : FrameBuffer TextureFormat × Device TextureFormat :=
  match FrameBuffer.ctor TextureFormat.headers cubeSpec exampleDevice with
  | .ok built => built
  | .error _ => (FrameBuffer.define TextureFormat.headers cubeSpec, exampleDevice)

/-! ## Library -/

/-- The members of `Library<ObjectType>`: the `std::unordered_map` from names to objects, as
the partial function it represents, and the name of the kind of object. -/
structure Library (T : Type) where
  m_Objects : String → Option T
  m_ObjectsName : String

/-- The member function `Exists`: whether `find(name)` is not `end()`. -/
def Library.Exists {T : Type} (lib : Library T) (name : String) : Bool :=
  (lib.m_Objects name).isSome

/-- The assignment `m_Objects[name] = object`: inserts the name or overwrites its object. -/
def Library.assign {T : Type} (lib : Library T) (name : String) (object : T) : Library T :=
  { lib with m_Objects := fun n => if n = name then some object else lib.m_Objects n }

/-- The expression `m_Objects[name]` of `std::unordered_map`: the object stored under the
name; when there is none, a value-initialised object is inserted under the name first. -/
def Library.subscript {T : Type} [Inhabited T] (lib : Library T) (name : String) :
    T × Library T :=
  match lib.m_Objects name with
  | some object => (object, lib)
  | none => (default, lib.assign name default)

/-- The member function `Add`; the last argument and the second component of the result are
the warnings logged so far. -/
def Library.Add {T : Type} (lib : Library T) (name : String) (object : T)
    (warnings : List String) : Library T × List String :=
  let «exists» := lib.Exists name
  if «exists» then (lib, warnings ++ [lib.m_ObjectsName ++ " already exists!"])
  else (lib.assign name object, warnings)

/-- The member function `Get`: the returned object, the library afterwards and the warnings
logged so far. -/
def Library.Get {T : Type} [Inhabited T] (lib : Library T) (name : String)
    (warnings : List String) : T × Library T × List String :=
  let «exists» := lib.Exists name
  let warnings := if !«exists» then warnings ++ [lib.m_ObjectsName ++ " not found!"] else warnings
  let (object, lib) := lib.subscript name
  (object, lib, warnings)

/-- The member function `Update`. -/
def Library.Update {T : Type} (lib : Library T) (name : String) (object : T)
    (warnings : List String) : Library T × List String :=
  let «exists» := lib.Exists name
  if «exists» then (lib.assign name object, warnings)
  else (lib, warnings ++ [lib.m_ObjectsName ++ " not found!"])

/-- A library of numbers without entries, as the constructor leaves it. -/
def emptyLibrary : Library Nat :=
  { m_Objects := fun _ => none, m_ObjectsName := "Object" }

/-! ## Further worked examples -/

/-- A blueprint with one RGBA8 attachment and no depth attachment. -/
def colorOnlySpec : FrameBufferSpecification TextureFormat :=
  { Width := 800, Height := 600, Depth := 0, Samples := 1, MipMaps := false
    AttachmentsSpec := { TexturesSpec :=
      [TextureFormat.attachment TextureFormat.RGBA8 TextureType.TEXTURE2D] } }

/-- The framebuffer and the device after the constructor has run on `colorOnlySpec` and the
example device. -/
def colorOnlyBuilt : FrameBuffer TextureFormat × Device TextureFormat :=
  match FrameBuffer.ctor TextureFormat.headers colorOnlySpec exampleDevice with
  | .ok built => built
  | .error _ => (FrameBuffer.define TextureFormat.headers colorOnlySpec, exampleDevice)

/-! ## Draw buffers -/

section DrawBuffers

variable {F : Type}

end DrawBuffers

/-- A mip-mapped blueprint whose second color attachment has the dimensionality `None`, so
that `Invalidate` leaves a null resource for it. -/
def nullAttachmentSpec : FrameBufferSpecification TextureFormat :=
  { Width := 256, Height := 256, Depth := 0, Samples := 1, MipMaps := true
    AttachmentsSpec := { TexturesSpec :=
      [TextureFormat.attachment TextureFormat.RGBA8 TextureType.TEXTURE2D,
       TextureFormat.attachment TextureFormat.RGBA8 TextureType.None,
       TextureFormat.attachment TextureFormat.Depth24Stencil8 TextureType.TEXTURE2D] } }

/-- The framebuffer and the device after the constructor has run on `nullAttachmentSpec` and
the example device. -/
def nullAttachmentBuilt : FrameBuffer TextureFormat × Device TextureFormat :=
  match FrameBuffer.ctor TextureFormat.headers nullAttachmentSpec exampleDevice with
  | .ok built => built
  | .error _ => (FrameBuffer.define TextureFormat.headers nullAttachmentSpec, exampleDevice)

/-! ## TextureCube::LoadFromFile -/

/-- What a successful `stbi_load` or `stbi_loadf` yields: the buffer it returns (a non-null
pointer, kept as a handle) and the width, height and channel count it writes. -/
structure DecodedImage where
  data : Nat
  width : Int
  height : Int
  channels : Int
  deriving DecidableEq, Repr

/-- Modelled from the spec: the image codec collaborator and the path and texture helpers
that `LoadFromFile` calls and the sources do not contain: the extension and the file name of
`directory / file`, the two decoders (a null result is `none`), and
`utils::textures::UpdateSpecsTextureResource`. -/
structure Codec (F : Type) where
  extension : String → String → String
  filename : String → String → String
  stbi_load : String → String → Option DecodedImage
  stbi_loadf : String → String → Option DecodedImage
  UpdateSpecsTextureResource :
    TextureSpecification F → Int → Int → Int → TextureSpecification F

/-- One entry of the log of `LoadFromFile`: a codec call, a warning, or the creation of the
cube texture from the face buffers. -/
inductive LoaderCall (F : Type)
  | stbi_set_flip_vertically_on_load (flag : Bool)
  | stbi_load (directory file : String)
  | stbi_loadf (directory file : String)
  | CORE_WARN (msg : String)
  | CreateTexture (data : List Nat) (spec : TextureSpecification F)
  | stbi_image_free (data : Nat)
  deriving DecidableEq, Repr

/-- The members of `TextureCube` that `LoadFromFile` uses. -/
structure TextureCube (F : Type) where
  m_Spec : TextureSpecification F
  m_Flip : Bool
  deriving DecidableEq, Repr

section Loader

variable {F : Type} [DecidableEq F]

/-- The decoder that `LoadFromFile` picks for a file: `stbi_loadf` for the extension ".hdr",
`stbi_load` for any other. -/
def Codec.decode (C : Codec F) (directory file : String) : Option DecodedImage :=
  if C.extension directory file ≠ ".hdr" then C.stbi_load directory file
  else C.stbi_loadf directory file

/-- The log entry of the decoder call for a file. -/
def Codec.decodeCall (C : Codec F) (directory file : String) : LoaderCall F :=
  if C.extension directory file ≠ ".hdr" then LoaderCall.stbi_load directory file
  else LoaderCall.stbi_loadf directory file

/-- Message of the assertion on the number of files. -/
def fatalCubeFaces : String := "Invalid data for the texture cube map!"

/-- The loop of `LoadFromFile` from the given file on. The arguments are the files still to
load, the texture, the buffers decoded so far and the log; the result holds the buffers of
all faces, or `none` when the function has returned at a face that failed to decode. The
assertion `(unsigned int)m_Spec.Format` fails for the format `None`. -/
def loadFaces (H : Headers F) (C : Codec F) (directory : String) :
    List String → TextureCube F → List Nat → List (LoaderCall F) →
      Except (Abort × List (LoaderCall F))
        (Option (List Nat) × TextureCube F × List (LoaderCall F))
  | [], tc, data, log => .ok (some data, tc, log)
  | file :: rest, tc, data, log =>
    let log := log ++ [LoaderCall.stbi_set_flip_vertically_on_load tc.m_Flip]
    let log := log ++ [C.decodeCall directory file]
    match C.decode directory file with
    | none =>
      .ok (none, tc,
        log ++ [LoaderCall.CORE_WARN ("Failed to load: " ++ C.filename directory file)])
    | some image =>
      let tc := { tc with m_Spec :=
        C.UpdateSpecsTextureResource tc.m_Spec image.width image.height image.channels }
      if tc.m_Spec.Format = H.None then
        .error (Abort.Fatal
          ("Data format of " ++ C.filename directory file ++ " not supported!"), log)
      else loadFaces H C directory rest tc (data ++ [image.data]) log

/-- The member function `TextureCube::LoadFromFile`: the texture afterwards and the calls
issued, or the reason of the stop and the calls issued until then. -/
def TextureCube.LoadFromFile (H : Headers F) (C : Codec F) (tc : TextureCube F)
    (directory : String) (files : List String) :
    Except (Abort × List (LoaderCall F)) (TextureCube F × List (LoaderCall F)) :=
  if files.length ≠ 6 then .error (Abort.Fatal fatalCubeFaces, [])
  else
    match loadFaces H C directory files tc [] [] with
    | .error e => .error e
    | .ok (none, tc, log) => .ok (tc, log)
    | .ok (some data, tc, log) =>
      let log := log ++ [LoaderCall.CreateTexture data tc.m_Spec]
      .ok (tc, log ++ data.map LoaderCall.stbi_image_free)

/-- Whether a log entry creates the cube texture. -/
def LoaderCall.isCreateTexture : LoaderCall F → Bool
  | LoaderCall.CreateTexture _ _ => true
  | _ => false

/-- The calls that decode the given files one after the other: for each file the flip
setting followed by the decoder call. -/
def decodeCalls (C : Codec F) (flip : Bool) (directory : String) (files : List String) :
    List (LoaderCall F) :=
  files.flatMap (fun file =>
    [LoaderCall.stbi_set_flip_vertically_on_load flip, C.decodeCall directory file])

/-- Whether, applying `UpdateSpecsTextureResource` for the given images one after the other,
the specification has a format other than `None` after each of them. -/
def formatsSupported (H : Headers F) (C : Codec F) :
    TextureSpecification F → List DecodedImage → Bool
  | _, [] => true
  | spec, image :: rest =>
    decide ((C.UpdateSpecsTextureResource spec image.width image.height image.channels).Format
      ≠ H.None) &&
    formatsSupported H C
      (C.UpdateSpecsTextureResource spec image.width image.height image.channels) rest

/-- The specification after `UpdateSpecsTextureResource` has been applied for the given
images one after the other. -/
def specAfter (C : Codec F) (spec : TextureSpecification F) (images : List DecodedImage) :
    TextureSpecification F :=
  images.foldl
    (fun s image => C.UpdateSpecsTextureResource s image.width image.height image.channels) spec

end Loader

/-- An instance of the codec for the worked examples. Six face files decode to four-channel
images, "gray.png" decodes to a single-channel image, any other file fails to decode; the
helper sets the size and knows the four-channel format only. -/
def exampleCodec : Codec TextureFormat :=
  { extension := fun _ _ => ".png"
    filename := fun _ file => file
    stbi_load := fun _ file =>
      if file = "right.png" then some { data := 1, width := 2, height := 2, channels := 4 }
      else if file = "left.png" then some { data := 2, width := 2, height := 2, channels := 4 }
      else if file = "top.png" then some { data := 3, width := 2, height := 2, channels := 4 }
      else if file = "bottom.png" then some { data := 4, width := 2, height := 2, channels := 4 }
      else if file = "front.png" then some { data := 5, width := 2, height := 2, channels := 4 }
      else if file = "back.png" then some { data := 6, width := 2, height := 2, channels := 4 }
      else if file = "gray.png" then some { data := 7, width := 2, height := 2, channels := 1 }
      else none
    stbi_loadf := fun _ _ => none
    UpdateSpecsTextureResource := fun spec width height channels =>
      { spec with
        Width := width.toNat, Height := height.toNat,
        Format := if channels = 4 then TextureFormat.RGBA8 else TextureFormat.None } }

/-- A cube texture with a default specification. -/
def exampleCube : TextureCube TextureFormat :=
  { m_Spec := TextureFormat.attachment TextureFormat.None TextureType.TEXTURECUBE,
    m_Flip := true }

/-- Six face files that all decode to four-channel images. -/
def exampleFaces : List String :=
  ["right.png", "left.png", "top.png", "bottom.png", "front.png", "back.png"]

/-- Six face files that all decode, the third one to a single-channel image. -/
def grayFaces : List String :=
  ["right.png", "left.png", "gray.png", "bottom.png", "front.png", "back.png"]

/-- Six face files of which the third one fails to decode. -/
def brokenFaces : List String :=
  ["right.png", "left.png", "missing.png", "bottom.png", "front.png", "back.png"]

end BasicRenderer

/-! ## Lemmas on the constructor loop -/

namespace BasicRenderer

section Proofs

theorem defineAttachment_fst {F : Type} (H : Headers F) (fb : FrameBuffer F) (s : TextureSpecification F) :
    (defineAttachment H fb s).1 = definedSpec H fb.m_Spec s := by
  unfold defineAttachment definedSpec
  by_cases h : H.IsDepthFormat s.Format = true <;> simp [h]

theorem defineAttachment_snd {F : Type} (H : Headers F) (fb : FrameBuffer F) (s : TextureSpecification F) :
    (defineAttachment H fb s).2.m_Spec = fb.m_Spec ∧
    (defineAttachment H fb s).2.m_ID = fb.m_ID ∧
    (defineAttachment H fb s).2.m_ColorAttachments = fb.m_ColorAttachments ∧
    (defineAttachment H fb s).2.m_DepthAttachment = fb.m_DepthAttachment ∧
    (defineAttachment H fb s).2.m_ColorAttachmentsSpec =
      fb.m_ColorAttachmentsSpec ++
        (if H.IsDepthFormat s.Format = true then [] else [definedSpec H fb.m_Spec s]) ∧
    (defineAttachment H fb s).2.m_DepthAttachmentSpec =
      (if H.IsDepthFormat s.Format = true then definedSpec H fb.m_Spec s
       else fb.m_DepthAttachmentSpec) := by
  unfold defineAttachment definedSpec
  by_cases h : H.IsDepthFormat s.Format = true <;> simp [h]

theorem definedSpec_format {F : Type} (H : Headers F) (g : FrameBufferSpecification F)
    (s : TextureSpecification F) : (definedSpec H g s).Format = s.Format := rfl

theorem defineAttachments_eq {F : Type} (H : Headers F) (specs : List (TextureSpecification F))
    (fb : FrameBuffer F) :
    (defineAttachments H specs fb).1 = specs.map (definedSpec H fb.m_Spec) ∧
    (defineAttachments H specs fb).2.m_Spec = fb.m_Spec ∧
    (defineAttachments H specs fb).2.m_ID = fb.m_ID ∧
    (defineAttachments H specs fb).2.m_ColorAttachments = fb.m_ColorAttachments ∧
    (defineAttachments H specs fb).2.m_DepthAttachment = fb.m_DepthAttachment ∧
    (defineAttachments H specs fb).2.m_ColorAttachmentsSpec =
      fb.m_ColorAttachmentsSpec ++
        (specs.map (definedSpec H fb.m_Spec)).filter (fun s => !H.IsDepthFormat s.Format) ∧
    (defineAttachments H specs fb).2.m_DepthAttachmentSpec =
      (((specs.map (definedSpec H fb.m_Spec)).filter
        (fun s => H.IsDepthFormat s.Format)).getLast?).getD fb.m_DepthAttachmentSpec := by
  induction specs generalizing fb with
  | nil => simp [defineAttachments]
  | cons s rest ih =>
    obtain ⟨h1, h2, h3, h4, h5, h6⟩ := defineAttachment_snd H fb s
    have hf := defineAttachment_fst H fb s
    obtain ⟨i1, i2, i3, i4, i5, i6, i7⟩ := ih (defineAttachment H fb s).2
    simp only [defineAttachments]
    rw [h1] at i1 i2 i6 i7
    refine ⟨?_, ?_, ?_, ?_, ?_, ?_, ?_⟩
    · simp [i1, hf]
    · simpa using i2
    · simpa [h2] using i3
    · simpa [h3] using i4
    · simpa [h4] using i5
    · simp only [i6, h5, List.map_cons, List.filter_cons, definedSpec_format]
      by_cases h : H.IsDepthFormat s.Format = true <;> simp [h]
    · simp only [i7, h6, List.map_cons, List.filter_cons, definedSpec_format]
      by_cases h : H.IsDepthFormat s.Format = true <;> simp [h, List.getLast?_cons]

theorem define_eq {F : Type} (H : Headers F) (spec : FrameBufferSpecification F) :
    (FrameBuffer.define H spec).m_Spec =
      { spec with AttachmentsSpec :=
          { TexturesSpec := spec.AttachmentsSpec.TexturesSpec.map (definedSpec H spec) } } ∧
    (FrameBuffer.define H spec).m_ID = 0 ∧
    (FrameBuffer.define H spec).m_ColorAttachments = [] ∧
    (FrameBuffer.define H spec).m_DepthAttachment = none ∧
    (FrameBuffer.define H spec).m_ColorAttachmentsSpec =
      (spec.AttachmentsSpec.TexturesSpec.map (definedSpec H spec)).filter
        (fun s => !H.IsDepthFormat s.Format) ∧
    (FrameBuffer.define H spec).m_DepthAttachmentSpec =
      (((spec.AttachmentsSpec.TexturesSpec.map (definedSpec H spec)).filter
        (fun s => H.IsDepthFormat s.Format)).getLast?).getD H.DefaultSpec := by
  obtain ⟨i1, i2, i3, i4, i5, i6, i7⟩ :=
    defineAttachments_eq H spec.AttachmentsSpec.TexturesSpec (FrameBuffer.initial H spec)
  simp only [FrameBuffer.define]
  refine ⟨?_, ?_, ?_, ?_, ?_, ?_⟩
  · rw [i1, i2]; rfl
  · rw [i3]; rfl
  · rw [i4]; rfl
  · rw [i5]; rfl
  · rw [i6]; rfl
  · rw [i7]; rfl

/-! ## Lemmas on Invalidate -/

theorem releaseExisting_specs {F : Type} (fb fb1 : FrameBuffer F) (dev dev1 : Device F)
    (h : fb.releaseExisting dev = .ok (fb1, dev1)) :
    fb1.m_Spec = fb.m_Spec ∧ fb1.m_ColorAttachmentsSpec = fb.m_ColorAttachmentsSpec ∧
    fb1.m_DepthAttachmentSpec = fb.m_DepthAttachmentSpec ∧
    fb1.m_ActiveBuffers = fb.m_ActiveBuffers := by
  unfold FrameBuffer.releaseExisting at h
  split at h
  · split at h
    · cases h
    · cases h; simp
  · cases h; simp

theorem invalidateColorBlock_specs {F : Type} [DecidableEq F] (H : Headers F)
    (fb : FrameBuffer F) (dev : Device F) :
    (fb.invalidateColorBlock H dev).1.m_Spec = fb.m_Spec ∧
    (fb.invalidateColorBlock H dev).1.m_ColorAttachmentsSpec = fb.m_ColorAttachmentsSpec ∧
    (fb.invalidateColorBlock H dev).1.m_DepthAttachmentSpec = fb.m_DepthAttachmentSpec ∧
    (fb.invalidateColorBlock H dev).1.m_ActiveBuffers = fb.m_ActiveBuffers ∧
    (fb.invalidateColorBlock H dev).1.m_DepthAttachment = fb.m_DepthAttachment ∧
    (fb.invalidateColorBlock H dev).1.m_ID = fb.m_ID := by
  unfold FrameBuffer.invalidateColorBlock
  split <;> simp

theorem invalidateDepthBlock_specs {F : Type} [DecidableEq F] (H : Headers F)
    (fb : FrameBuffer F) (dev : Device F) :
    (fb.invalidateDepthBlock H dev).1.m_Spec = fb.m_Spec ∧
    (fb.invalidateDepthBlock H dev).1.m_ColorAttachmentsSpec = fb.m_ColorAttachmentsSpec ∧
    (fb.invalidateDepthBlock H dev).1.m_DepthAttachmentSpec = fb.m_DepthAttachmentSpec ∧
    (fb.invalidateDepthBlock H dev).1.m_ActiveBuffers = fb.m_ActiveBuffers ∧
    (fb.invalidateDepthBlock H dev).1.m_ColorAttachments = fb.m_ColorAttachments ∧
    (fb.invalidateDepthBlock H dev).1.m_ID = fb.m_ID := by
  unfold FrameBuffer.invalidateDepthBlock
  split <;> simp [Texture.CreateTexture]

/-- The members after a completed `Invalidate`, in terms of the three blocks. -/
theorem Invalidate_ok {F : Type} [DecidableEq F] (H : Headers F) (fb fb2 : FrameBuffer F)
    (dev dev2 : Device F) (h : fb.Invalidate H dev = .ok (fb2, dev2)) :
    ∃ fb1 dev1, fb.releaseExisting dev = .ok (fb1, dev1) ∧
      fb2 = ((({ fb1 with m_ID := dev1.names + 1 } : FrameBuffer F).invalidateColorBlock H
          (((dev1.genName).2.call (Call.glGenFramebuffers (dev1.names + 1))).call
            (Call.glBindFramebuffer FramebufferTarget.GL_FRAMEBUFFER (dev1.names + 1)))).1.invalidateDepthBlock
        H (({ fb1 with m_ID := dev1.names + 1 } : FrameBuffer F).invalidateColorBlock H
          (((dev1.genName).2.call (Call.glGenFramebuffers (dev1.names + 1))).call
            (Call.glBindFramebuffer FramebufferTarget.GL_FRAMEBUFFER (dev1.names + 1)))).2).1 := by
  unfold FrameBuffer.Invalidate at h
  split at h
  · cases h
  · rename_i fb1 dev1 hrel
    refine ⟨fb1, dev1, hrel, ?_⟩
    simp only [Device.genName] at h ⊢
    split at h
    · cases h
    · split at h
      · cases h
      · cases h; rfl

theorem Invalidate_specs {F : Type} [DecidableEq F] (H : Headers F) (fb fb2 : FrameBuffer F)
    (dev dev2 : Device F) (h : fb.Invalidate H dev = .ok (fb2, dev2)) :
    fb2.m_Spec = fb.m_Spec ∧ fb2.m_ColorAttachmentsSpec = fb.m_ColorAttachmentsSpec ∧
    fb2.m_DepthAttachmentSpec = fb.m_DepthAttachmentSpec ∧
    fb2.m_ActiveBuffers = fb.m_ActiveBuffers := by
  obtain ⟨fb1, dev1, hrel, rfl⟩ := Invalidate_ok H fb fb2 dev dev2 h
  obtain ⟨r1, r2, r3, r4⟩ := releaseExisting_specs fb fb1 dev dev1 hrel
  refine ⟨?_, ?_, ?_, ?_⟩
  · rw [(invalidateDepthBlock_specs H _ _).1, (invalidateColorBlock_specs H _ _).1]; exact r1
  · rw [(invalidateDepthBlock_specs H _ _).2.1, (invalidateColorBlock_specs H _ _).2.1]
    exact r2
  · rw [(invalidateDepthBlock_specs H _ _).2.2.1, (invalidateColorBlock_specs H _ _).2.2.1]
    exact r3
  · rw [(invalidateDepthBlock_specs H _ _).2.2.2.1, (invalidateColorBlock_specs H _ _).2.2.2.1]
    exact r4

/-! ## Lemmas on the color loop -/

theorem createTexture_none {F : Type} (s : TextureSpecification F) (samples : Nat) :
    createTexture s samples = none ↔ s.TexType = TextureType.None := by
  unfold createTexture
  cases s.TexType <;> simp

theorem createTexture_some {F : Type} (s : TextureSpecification F) (samples : Nat)
    (t : Texture F) (h : createTexture s samples = some t) :
    t.m_ID = 0 ∧ t.m_Spec = s ∧ s.TexType ≠ TextureType.None ∧
      (s.TexType = TextureType.TEXTURECUBE → t.Kind = TextureKind.TextureCube) := by
  unfold createTexture at h
  cases hs : s.TexType <;> rw [hs] at h <;> simp at h <;> subst h <;> simp

theorem attachColor_call {F : Type} (i : Nat) (t : Texture F) (type : TextureType)
    (dev : Device F) (h : type ≠ TextureType.None) :
    ∃ c, attachColor i t type dev = dev.call c ∧ c.colorSlot = some i ∧
      c.isWarning = false ∧ c.allocated = none := by
  cases type
  · exact absurd rfl h
  all_goals exact ⟨_, rfl, rfl, rfl, rfl⟩

theorem invalidateColors_length {F : Type} [DecidableEq F] (H : Headers F) (samples : Nat)
    (specs : List (TextureSpecification F)) :
    ∀ (i : Nat) (atts : List (Option (Texture F))) (dev : Device F),
      (invalidateColors H samples specs i atts dev).1.length = atts.length := by
  induction specs with
  | nil => intro i atts dev; rfl
  | cons s rest ih =>
    intro i atts dev
    cases hc : createTexture s samples with
    | none => simp only [invalidateColors, hc]; rw [ih]; simp
    | some t =>
      simp only [invalidateColors, hc]
      split
      · rw [ih]; simp
      · rw [ih]; simp

theorem invalidateColors_entries {F : Type} [DecidableEq F] (H : Headers F) (samples : Nat)
    (specs : List (TextureSpecification F)) :
    ∀ (i : Nat) (atts : List (Option (Texture F))) (dev : Device F),
      i + specs.length ≤ atts.length →
      (∀ j, j < i → (invalidateColors H samples specs i atts dev).1[j]? = atts[j]?) ∧
      (∀ (j : Nat) (s : TextureSpecification F), specs[j]? = some s →
        (skippedEntry H s = true →
          (invalidateColors H samples specs i atts dev).1[i + j]? =
            some (createTexture s samples)) ∧
        (skippedEntry H s = false →
          ∃ t : Texture F, (invalidateColors H samples specs i atts dev).1[i + j]? =
            some (some t) ∧ t.m_ID ≠ 0 ∧ createTexture s samples = some { t with m_ID := 0 })) := by
  induction specs with
  | nil =>
    intro i atts dev _
    exact ⟨fun j _ => rfl, fun j s hs => by simp at hs⟩
  | cons s rest ih =>
    intro i atts dev hlen
    simp only [List.length_cons] at hlen
    have hi : i < atts.length := by omega
    -- the attachments and the device with which the loop continues
    have key : ∃ (atts1 : List (Option (Texture F))) (dev1 : Device F) (x : Option (Texture F)),
        invalidateColors H samples (s :: rest) i atts dev =
          invalidateColors H samples rest (i + 1) atts1 dev1 ∧
        atts1 = atts.set i x ∧
        (skippedEntry H s = true → x = createTexture s samples) ∧
        (skippedEntry H s = false → ∃ t : Texture F, x = some t ∧ t.m_ID ≠ 0 ∧
          createTexture s samples = some { t with m_ID := 0 }) := by
      cases hc : createTexture s samples with
      | none =>
        refine ⟨atts.set i none, dev.call (Call.CORE_WARN warnColorAttachment), none,
          by simp only [invalidateColors, hc], rfl, fun _ => rfl, ?_⟩
        intro hk
        have := (createTexture_none s samples).1 hc
        simp [skippedEntry, this] at hk
      | some t =>
        obtain ⟨t0, t1, t2, -⟩ := createTexture_some s samples t hc
        by_cases hb : s.Format = H.None ∨ H.IsDepthFormat s.Format = true
        · refine ⟨atts.set i (some t), dev.call (Call.CORE_WARN warnColorAttachment), some t,
            by simp only [invalidateColors, hc, if_pos hb], rfl, fun _ => rfl, ?_⟩
          intro hk
          rcases hb with hb | hb <;> simp [skippedEntry, hb] at hk
        · refine ⟨atts.set i (some (t.CreateTexture dev).1),
            attachColor i (t.CreateTexture dev).1 s.TexType (t.CreateTexture dev).2,
            some (t.CreateTexture dev).1, by
            simp only [invalidateColors, hc, if_neg hb, List.set_set], rfl, ?_, ?_⟩
          · intro hk
            simp only [not_or] at hb
            simp [skippedEntry, t2, hb.1, hb.2] at hk
          · intro _
            refine ⟨_, rfl, by simp [Texture.CreateTexture, Device.genName], ?_⟩
            cases t
            simp only [Texture.CreateTexture, Device.genName] at t0 ⊢
            simp [t0]
    obtain ⟨atts1, dev1, x, hstep, hatts, hbad, hgood⟩ := key
    have hlen1 : (i + 1) + rest.length ≤ atts1.length := by
      rw [hatts, List.length_set]; omega
    obtain ⟨ih1, ih2⟩ := ih (i + 1) atts1 dev1 hlen1
    rw [hstep]
    refine ⟨?_, ?_⟩
    · intro j hj
      rw [ih1 j (by omega), hatts, List.getElem?_set]
      have : i ≠ j := by omega
      simp [this]
    · intro j t hj
      cases j with
      | zero =>
        simp only [List.getElem?_cons_zero, Option.some.injEq] at hj
        subst hj
        have hx : (invalidateColors H samples rest (i + 1) atts1 dev1).1[i]? = some x := by
          rw [ih1 i (by omega), hatts, List.getElem?_set]
          simp [hi]
        refine ⟨fun hk => ?_, fun hk => ?_⟩
        · show (invalidateColors H samples rest (i + 1) atts1 dev1).1[i]? = _
          rw [hx, hbad hk]
        · obtain ⟨t, rfl, h1, h2⟩ := hgood hk
          exact ⟨t, hx, h1, h2⟩
      | succ j =>
        simp only [List.getElem?_cons_succ] at hj
        have := ih2 j t hj
        rw [show i + (j + 1) = i + 1 + j by omega]
        exact this

/-- One turn of the color loop, seen from the call log: a skipped entry adds one warning, any
other entry adds one storage allocation followed by one attach call on slot `i`. -/
theorem invalidateColors_step {F : Type} [DecidableEq F] (H : Headers F) (samples : Nat)
    (s : TextureSpecification F) (rest : List (TextureSpecification F)) (i : Nat)
    (atts : List (Option (Texture F))) (dev : Device F) :
    ∃ (atts1 : List (Option (Texture F))) (dev1 : Device F) (Y : List (Call F)),
      invalidateColors H samples (s :: rest) i atts dev =
        invalidateColors H samples rest (i + 1) atts1 dev1 ∧
      dev1.calls = dev.calls ++ Y ∧
      (skippedEntry H s = true → Y = [Call.CORE_WARN warnColorAttachment]) ∧
      (skippedEntry H s = false → ∃ (c : Call F) (k : TextureKind) (id : Nat),
        Y = [Call.CreateTexture k s id, c] ∧ c.colorSlot = some i ∧ c.isWarning = false ∧
          c.allocated = none) := by
  cases hc : createTexture s samples with
  | none =>
    refine ⟨atts.set i none, dev.call (Call.CORE_WARN warnColorAttachment), _,
      by simp only [invalidateColors, hc], rfl, fun _ => rfl, ?_⟩
    intro hk
    have := (createTexture_none s samples).1 hc
    simp [skippedEntry, this] at hk
  | some t =>
    obtain ⟨t0, t1, t2, -⟩ := createTexture_some s samples t hc
    by_cases hb : s.Format = H.None ∨ H.IsDepthFormat s.Format = true
    · refine ⟨atts.set i (some t), dev.call (Call.CORE_WARN warnColorAttachment), _,
        by simp only [invalidateColors, hc, if_pos hb], rfl, fun _ => rfl, ?_⟩
      intro hk
      rcases hb with hb | hb <;> simp [skippedEntry, hb] at hk
    · obtain ⟨c, hcall, c1, c2, c3⟩ :=
        attachColor_call i (t.CreateTexture dev).1 s.TexType (t.CreateTexture dev).2 t2
      refine ⟨atts.set i (some (t.CreateTexture dev).1),
        attachColor i (t.CreateTexture dev).1 s.TexType (t.CreateTexture dev).2,
        [Call.CreateTexture t.Kind s (dev.names + 1), c], by
        simp only [invalidateColors, hc, if_neg hb, List.set_set], ?_, ?_, ?_⟩
      · rw [hcall]
        simp [Texture.CreateTexture, Device.genName, Device.call, t1]
      · intro hk
        simp only [not_or] at hb
        simp [skippedEntry, t2, hb.1, hb.2] at hk
      · intro _
        exact ⟨c, t.Kind, dev.names + 1, rfl, c1, c2, c3⟩

/-- The calls that the color loop adds to the log: the attach calls fill exactly the slots
of the entries that are not skipped, in increasing order; the warnings are one per skipped
entry; storage is allocated exactly for the entries that are not skipped, in order. -/
theorem invalidateColors_calls {F : Type} [DecidableEq F] (H : Headers F) (samples : Nat)
    (specs : List (TextureSpecification F)) :
    ∀ (i : Nat) (atts : List (Option (Texture F))) (dev : Device F),
      ∃ X : List (Call F),
        (invalidateColors H samples specs i atts dev).2.calls = dev.calls ++ X ∧
        X.filterMap Call.colorSlot =
          ((specs.enumFrom i).filter (fun p => !skippedEntry H p.2)).map Prod.fst ∧
        X.filter Call.isWarning =
          List.replicate (specs.countP (skippedEntry H)) (Call.CORE_WARN warnColorAttachment) ∧
        X.filterMap Call.allocated = specs.filter (fun s => !skippedEntry H s) := by
  induction specs with
  | nil => intro i atts dev; exact ⟨[], by simp [invalidateColors], rfl, rfl, rfl⟩
  | cons s rest ih =>
    intro i atts dev
    obtain ⟨atts1, dev1, Y, hstep, hY, hbad, hgood⟩ :=
      invalidateColors_step H samples s rest i atts dev
    obtain ⟨X, hX, x1, x2, x3⟩ := ih (i + 1) atts1 dev1
    refine ⟨Y ++ X, by rw [hstep, hX, hY, List.append_assoc], ?_, ?_, ?_⟩
    · cases hk : skippedEntry H s with
      | true =>
        rw [hbad hk]
        simp [List.enumFrom_cons, List.filter_cons, hk, x1, Call.colorSlot]
      | false =>
        obtain ⟨c, k, id, rfl, c1, c2, c3⟩ := hgood hk
        rw [List.filterMap_append, x1,
          List.filterMap_cons_none (show (Call.CreateTexture k s id).colorSlot = none from rfl),
          List.filterMap_cons_some c1]
        simp [List.enumFrom_cons, List.filter_cons, hk]
    · cases hk : skippedEntry H s with
      | true =>
        rw [hbad hk]
        simp [List.countP_cons, hk, x2, Call.isWarning, List.replicate_succ']
        rw [← List.replicate_succ, List.replicate_succ']
      | false =>
        obtain ⟨c, k, id, rfl, c1, c2, c3⟩ := hgood hk
        rw [List.filter_append, x2,
          List.filter_cons_of_neg (show ¬ (Call.CreateTexture k s id).isWarning = true by
            simp [Call.isWarning]),
          List.filter_cons_of_neg (show ¬ c.isWarning = true by simp [c2])]
        simp [List.countP_cons, hk]
    · cases hk : skippedEntry H s with
      | true =>
        rw [hbad hk]
        simp [List.filter_cons, hk, x3, Call.allocated]
      | false =>
        obtain ⟨c, k, id, rfl, c1, c2, c3⟩ := hgood hk
        rw [List.filterMap_append, x3,
          List.filterMap_cons_some (show (Call.CreateTexture k s id).allocated = some s from rfl),
          List.filterMap_cons_none c3]
        simp [List.filter_cons, hk]

/-! ## Lemmas on the attachment resources after Invalidate -/

theorem resize_length {F : Type} (atts : List (Option (Texture F))) (n : Nat) :
    (resize atts n).length = n := by
  simp only [resize, List.length_append, List.length_take, List.length_replicate]
  omega

/-- The color attachments after the color block, for a framebuffer that has no attachments
when it has no color specifications. -/
theorem invalidateColorBlock_attachments {F : Type} [DecidableEq F] (H : Headers F)
    (fb : FrameBuffer F) (dev : Device F)
    (hempty : fb.m_ColorAttachmentsSpec = [] → fb.m_ColorAttachments = []) :
    (fb.invalidateColorBlock H dev).1.m_ColorAttachments.length =
      fb.m_ColorAttachmentsSpec.length ∧
    (∀ (j : Nat) (s : TextureSpecification F), fb.m_ColorAttachmentsSpec[j]? = some s →
      (skippedEntry H s = true →
        (fb.invalidateColorBlock H dev).1.m_ColorAttachments[j]? =
          some (createTexture s fb.m_Spec.Samples)) ∧
      (skippedEntry H s = false →
        ∃ t : Texture F, (fb.invalidateColorBlock H dev).1.m_ColorAttachments[j]? =
          some (some t) ∧ t.m_ID ≠ 0 ∧
          createTexture s fb.m_Spec.Samples = some { t with m_ID := 0 })) := by
  unfold FrameBuffer.invalidateColorBlock
  by_cases hs : fb.m_ColorAttachmentsSpec = []
  · simp [hs, hempty hs]
  · simp only [ne_eq, hs, not_false_eq_true, if_true]
    have hlen : 0 + fb.m_ColorAttachmentsSpec.length ≤
        (resize fb.m_ColorAttachments fb.m_ColorAttachmentsSpec.length).length := by
      rw [resize_length]; omega
    obtain ⟨-, e2⟩ := invalidateColors_entries H fb.m_Spec.Samples fb.m_ColorAttachmentsSpec 0
      (resize fb.m_ColorAttachments fb.m_ColorAttachmentsSpec.length) dev hlen
    refine ⟨by simp [invalidateColors_length, resize_length], ?_⟩
    intro j s hj
    have := e2 j s hj
    simpa only [Nat.zero_add] using this

/-- The members and the outcome of `Invalidate`, block by block. -/
theorem Invalidate_unfold {F : Type} [DecidableEq F] (H : Headers F) (fb : FrameBuffer F)
    (dev : Device F) :
    fb.Invalidate H dev =
      match fb.releaseExisting dev with
      | .error e => .error e
      | .ok (fb1, dev1) =>
        match ((({ fb1 with m_ID := dev1.names + 1 } : FrameBuffer F).invalidateColorBlock H
            (((dev1.genName).2.call (Call.glGenFramebuffers (dev1.names + 1))).call
              (Call.glBindFramebuffer FramebufferTarget.GL_FRAMEBUFFER
                (dev1.names + 1)))).1.invalidateDepthBlock H
            (({ fb1 with m_ID := dev1.names + 1 } : FrameBuffer F).invalidateColorBlock H
              (((dev1.genName).2.call (Call.glGenFramebuffers (dev1.names + 1))).call
                (Call.glBindFramebuffer FramebufferTarget.GL_FRAMEBUFFER
                  (dev1.names + 1)))).2) with
        | (fb3, dev3) =>
          match fb3.configureDrawBuffers dev3 with
          | .error e => .error e
          | .ok dev4 =>
            match checkComplete dev4 with
            | .error e => .error e
            | .ok dev5 => .ok (fb3, dev5) := by
  unfold FrameBuffer.Invalidate
  cases fb.releaseExisting dev with
  | error e => rfl
  | ok r => rfl

theorem releaseExisting_attachments {F : Type} (fb fb1 : FrameBuffer F) (dev dev1 : Device F)
    (hfresh : fb.m_ID = 0 → fb.m_ColorAttachments = [] ∧ fb.m_DepthAttachment = none)
    (h : fb.releaseExisting dev = .ok (fb1, dev1)) :
    fb1.m_ColorAttachments = [] ∧ fb1.m_DepthAttachment = none := by
  unfold FrameBuffer.releaseExisting at h
  split at h
  · split at h
    · cases h
    · cases h; simp
  · rename_i hid
    cases h
    exact hfresh (by simpa using hid)

theorem invalidateDepthBlock_depth {F : Type} [DecidableEq F] (H : Headers F)
    (fb : FrameBuffer F) (dev : Device F) (hd : fb.m_DepthAttachment = none) :
    (fb.invalidateDepthBlock H dev).1.m_DepthAttachment.isSome = true ↔
      H.IsDepthFormat fb.m_DepthAttachmentSpec.Format = true := by
  unfold FrameBuffer.invalidateDepthBlock
  by_cases hdp : H.IsDepthFormat fb.m_DepthAttachmentSpec.Format = true
  · have hne : fb.m_DepthAttachmentSpec.Format ≠ H.None := by
      intro he
      rw [he, H.none_not_depth] at hdp
      cases hdp
    simp [hne, hdp, Texture.CreateTexture]
  · simp [hdp, hd]

/-- After a completed `Invalidate` on a framebuffer that either has a device object or has no
attachment resources yet: the device handle is not 0, there are as many color attachment
resources as color specifications, a non-skipped entry has a resource with storage, an entry
of a dimensionality other than `None` has a resource, and the depth resource exists exactly
when the depth specification has a depth format. -/
theorem Invalidate_attachments {F : Type} [DecidableEq F] (H : Headers F)
    (fb fb2 : FrameBuffer F) (dev dev2 : Device F)
    (hfresh : fb.m_ID = 0 → fb.m_ColorAttachments = [] ∧ fb.m_DepthAttachment = none)
    (h : fb.Invalidate H dev = .ok (fb2, dev2)) :
    fb2.m_ID ≠ 0 ∧
    fb2.m_ColorAttachments.length = fb2.m_ColorAttachmentsSpec.length ∧
    (∀ (j : Nat) (s : TextureSpecification F), fb2.m_ColorAttachmentsSpec[j]? = some s →
      s.TexType ≠ TextureType.None →
        ∃ t : Texture F, fb2.m_ColorAttachments[j]? = some (some t)) ∧
    (fb2.m_DepthAttachment.isSome = true ↔
      H.IsDepthFormat fb2.m_DepthAttachmentSpec.Format = true) := by
  obtain ⟨fb1, dev1, hrel, rfl⟩ := Invalidate_ok H fb fb2 dev dev2 h
  obtain ⟨ha, hd⟩ := releaseExisting_attachments fb fb1 dev dev1 hfresh hrel
  obtain ⟨-, d2, d3, -, d5, d6⟩ := invalidateDepthBlock_specs H
    (({ fb1 with m_ID := dev1.names + 1 } : FrameBuffer F).invalidateColorBlock H
      (((dev1.genName).2.call (Call.glGenFramebuffers (dev1.names + 1))).call
        (Call.glBindFramebuffer FramebufferTarget.GL_FRAMEBUFFER (dev1.names + 1)))).1
    (({ fb1 with m_ID := dev1.names + 1 } : FrameBuffer F).invalidateColorBlock H
      (((dev1.genName).2.call (Call.glGenFramebuffers (dev1.names + 1))).call
        (Call.glBindFramebuffer FramebufferTarget.GL_FRAMEBUFFER (dev1.names + 1)))).2
  obtain ⟨-, c2, c3, -, c5, c6⟩ := invalidateColorBlock_specs H
    ({ fb1 with m_ID := dev1.names + 1 } : FrameBuffer F)
    (((dev1.genName).2.call (Call.glGenFramebuffers (dev1.names + 1))).call
      (Call.glBindFramebuffer FramebufferTarget.GL_FRAMEBUFFER (dev1.names + 1)))
  obtain ⟨a1, a2⟩ := invalidateColorBlock_attachments H
    ({ fb1 with m_ID := dev1.names + 1 } : FrameBuffer F)
    (((dev1.genName).2.call (Call.glGenFramebuffers (dev1.names + 1))).call
      (Call.glBindFramebuffer FramebufferTarget.GL_FRAMEBUFFER (dev1.names + 1)))
    (fun _ => ha)
  refine ⟨?_, ?_, ?_, ?_⟩
  · rw [d6, c6]; simp
  · rw [d5, d2, c2]; exact a1
  · rw [d5, d2, c2]
    intro j s hj hty
    obtain ⟨b1, b2⟩ := a2 j s hj
    cases hk : skippedEntry H s with
    | true =>
      cases hc : createTexture s fb1.m_Spec.Samples with
      | none => exact absurd ((createTexture_none s _).1 hc) hty
      | some t => exact ⟨t, by rw [b1 hk]; exact congrArg some hc⟩
    | false =>
      obtain ⟨t, ht, -, -⟩ := b2 hk
      exact ⟨t, ht⟩
  · rw [d3]
    exact invalidateDepthBlock_depth H _ _ (c5.trans hd)

/-! ## Constructor: partition, propagation, defaults -/

/-- The blueprint list, the color list and the depth specification after a completed
constructor, in terms of `definedSpec`. -/
theorem ctor_specs {F : Type} [DecidableEq F] (H : Headers F)
    (spec : FrameBufferSpecification F) (dev dev1 : Device F) (fb : FrameBuffer F)
    (h : FrameBuffer.ctor H spec dev = .ok (fb, dev1)) :
    fb.m_Spec = { spec with AttachmentsSpec :=
      { TexturesSpec := spec.AttachmentsSpec.TexturesSpec.map (definedSpec H spec) } } ∧
    fb.m_ColorAttachmentsSpec =
      (spec.AttachmentsSpec.TexturesSpec.map (definedSpec H spec)).filter
        (fun s => !H.IsDepthFormat s.Format) ∧
    fb.m_DepthAttachmentSpec =
      (((spec.AttachmentsSpec.TexturesSpec.map (definedSpec H spec)).filter
        (fun s => H.IsDepthFormat s.Format)).getLast?).getD H.DefaultSpec := by
  obtain ⟨s1, s2, s3, -⟩ := Invalidate_specs H _ fb dev dev1 h
  obtain ⟨d1, -, -, -, d5, d6⟩ := define_eq H spec
  exact ⟨s1.trans d1, s2.trans d5, s3.trans d6⟩

/-- When the blueprint has an entry with a depth format, the depth specification computed
by the constructor loop is the image of one of the blueprint entries with a depth format. -/
theorem depthSpec_mem {F : Type} (H : Headers F) (g : FrameBufferSpecification F)
    (specs : List (TextureSpecification F))
    (hd : ∃ s ∈ specs, H.IsDepthFormat s.Format = true) :
    ∃ s ∈ specs, H.IsDepthFormat s.Format = true ∧
      (((specs.map (definedSpec H g)).filter
        (fun s => H.IsDepthFormat s.Format)).getLast?).getD H.DefaultSpec = definedSpec H g s := by
  obtain ⟨s, hs, hd⟩ := hd
  have hmem : definedSpec H g s ∈
      (specs.map (definedSpec H g)).filter (fun s => H.IsDepthFormat s.Format) := by
    simp only [List.mem_filter, List.mem_map]
    exact ⟨⟨s, hs, rfl⟩, by simpa [definedSpec_format] using hd⟩
  cases hl : ((specs.map (definedSpec H g)).filter
      (fun s => H.IsDepthFormat s.Format)).getLast? with
  | none =>
    rw [List.getLast?_eq_none_iff] at hl
    rw [hl] at hmem
    cases hmem
  | some x =>
    have hx := List.mem_of_getLast?_eq_some hl
    simp only [List.mem_filter, List.mem_map] at hx
    obtain ⟨⟨t, ht, rfl⟩, hxd⟩ := hx
    exact ⟨t, ht, by simpa [definedSpec_format] using hxd, rfl⟩

/-- What the constructor does propagate. When it completes, the framebuffer keeps its global
width, height, depth and mip-map flag, the blueprint list keeps its length, and every
specification in the blueprint list and in the color specification list, and the depth
specification when the blueprint has an entry with a depth format, carries the global width,
height and mip-map flag, whatever values the entries held before. -/
theorem constructor_propagates_size {F : Type} [DecidableEq F] (H : Headers F)
    (spec : FrameBufferSpecification F) (dev dev1 : Device F) (fb : FrameBuffer F)
    (h : FrameBuffer.ctor H spec dev = .ok (fb, dev1)) :
    (fb.m_Spec.Width = spec.Width ∧ fb.m_Spec.Height = spec.Height ∧
      fb.m_Spec.Depth = spec.Depth ∧ fb.m_Spec.MipMaps = spec.MipMaps) ∧
    fb.m_Spec.AttachmentsSpec.TexturesSpec.length = spec.AttachmentsSpec.TexturesSpec.length ∧
    (∀ s ∈ fb.m_Spec.AttachmentsSpec.TexturesSpec ++ fb.m_ColorAttachmentsSpec,
      s.Width = spec.Width ∧ s.Height = spec.Height ∧ s.MipMaps = spec.MipMaps) ∧
    ((∃ s ∈ spec.AttachmentsSpec.TexturesSpec, H.IsDepthFormat s.Format = true) →
      fb.m_DepthAttachmentSpec.Width = spec.Width ∧
      fb.m_DepthAttachmentSpec.Height = spec.Height ∧
      fb.m_DepthAttachmentSpec.MipMaps = spec.MipMaps) := by
  obtain ⟨c1, c2, c3⟩ := ctor_specs H spec dev dev1 fb h
  rw [c1, c2, c3]
  refine ⟨⟨rfl, rfl, rfl, rfl⟩, by simp, ?_, ?_⟩
  · intro s hs
    simp only [List.mem_append, List.mem_filter, List.mem_map] at hs
    rcases hs with ⟨t, -, rfl⟩ | ⟨⟨t, -, rfl⟩, -⟩ <;> exact ⟨rfl, rfl, rfl⟩
  · intro hd
    obtain ⟨t, -, -, ht⟩ := depthSpec_mem H spec _ hd
    rw [ht]
    exact ⟨rfl, rfl, rfl⟩

/-- What the constructor does not propagate: when it completes, every entry of the blueprint
list keeps the depth field it had in the blueprint. -/
theorem constructor_keeps_depth_field {F : Type} [DecidableEq F] (H : Headers F)
    (spec : FrameBufferSpecification F) (dev dev1 : Device F) (fb : FrameBuffer F)
    (h : FrameBuffer.ctor H spec dev = .ok (fb, dev1)) :
    fb.m_Spec.AttachmentsSpec.TexturesSpec.map (fun s => s.Depth) =
      spec.AttachmentsSpec.TexturesSpec.map (fun s => s.Depth) := by
  obtain ⟨c1, -, -⟩ := ctor_specs H spec dev dev1 fb h
  rw [c1]
  simp [List.map_map, Function.comp_def, definedSpec]

/-- C2, the code at the failing input: the constructor completes on the blueprint of size
800 by 600 by 16 with a three-dimensional RGBA8 attachment and a depth attachment, both given
without a size. Afterwards the framebuffer has depth 16 and every specification (the two
entries of the blueprint list, the color specification and the depth specification) has
width 800 and height 600 but depth 0; `Resize(800, 600, 16)` on the same framebuffer
completes and leaves depth 16 in all four. -/
theorem constructor_leaves_depth_unset :
    FrameBuffer.ctor TextureFormat.headers volumeSpec exampleDevice = .ok volumeBuilt ∧
    (volumeBuilt.1.m_Spec.Width, volumeBuilt.1.m_Spec.Height, volumeBuilt.1.m_Spec.Depth) =
      (800, 600, 16) ∧
    (volumeBuilt.1.m_Spec.AttachmentsSpec.TexturesSpec ++ volumeBuilt.1.m_ColorAttachmentsSpec ++
        [volumeBuilt.1.m_DepthAttachmentSpec]).map (fun s => (s.Width, s.Height, s.Depth)) =
      [(800, 600, 0), (800, 600, 0), (800, 600, 0), (800, 600, 0)] ∧
    (volumeBuilt.1.Resize TextureFormat.headers 800 600 16 volumeBuilt.2).toOption.map
        (fun r => (r.1.m_Spec.AttachmentsSpec.TexturesSpec ++ r.1.m_ColorAttachmentsSpec ++
          [r.1.m_DepthAttachmentSpec]).map (fun s => (s.Width, s.Height, s.Depth))) =
      some [(800, 600, 16), (800, 600, 16), (800, 600, 16), (800, 600, 16)] :=
  ⟨rfl, by decide, by decide, by decide⟩

/-- C3. When the constructor completes: every color specification has filter `Linear`; the
depth specification, for a blueprint with a depth-format entry, has filter `Nearest`; both
are entries of the updated blueprint list; and the entry at each position of the blueprint
list keeps its format and its wrap mode if that was set, and gets `ClampToBorder` (depth
format) or `ClampToEdge` (any other format) if its wrap mode was `None`. -/
theorem constructor_derives_wrap_and_filter {F : Type} [DecidableEq F] (H : Headers F)
    (spec : FrameBufferSpecification F) (dev dev1 : Device F) (fb : FrameBuffer F)
    (h : FrameBuffer.ctor H spec dev = .ok (fb, dev1)) :
    (∀ s ∈ fb.m_ColorAttachmentsSpec,
      s.Filter = TextureFilter.Linear ∧ s ∈ fb.m_Spec.AttachmentsSpec.TexturesSpec) ∧
    ((∃ s ∈ spec.AttachmentsSpec.TexturesSpec, H.IsDepthFormat s.Format = true) →
      fb.m_DepthAttachmentSpec.Filter = TextureFilter.Nearest ∧
      fb.m_DepthAttachmentSpec ∈ fb.m_Spec.AttachmentsSpec.TexturesSpec) ∧
    (∀ (i : Nat) (s : TextureSpecification F), spec.AttachmentsSpec.TexturesSpec[i]? = some s →
      ∃ t : TextureSpecification F,
        fb.m_Spec.AttachmentsSpec.TexturesSpec[i]? = some t ∧ t.Format = s.Format ∧
        (s.Wrap ≠ TextureWrap.None → t.Wrap = s.Wrap) ∧
        (s.Wrap = TextureWrap.None → H.IsDepthFormat s.Format = true →
          t.Wrap = TextureWrap.ClampToBorder) ∧
        (s.Wrap = TextureWrap.None → H.IsDepthFormat s.Format = false →
          t.Wrap = TextureWrap.ClampToEdge)) := by
  obtain ⟨c1, c2, c3⟩ := ctor_specs H spec dev dev1 fb h
  rw [c1, c2, c3]
  refine ⟨?_, ?_, ?_⟩
  · intro s hs
    simp only [List.mem_filter, List.mem_map] at hs
    obtain ⟨⟨t, ht, rfl⟩, hnd⟩ := hs
    refine ⟨?_, List.mem_map.mpr ⟨t, ht, rfl⟩⟩
    simp only [definedSpec_format, Bool.not_eq_true'] at hnd
    simp [definedSpec, hnd]
  · intro hd
    obtain ⟨t, ht, htd, he⟩ := depthSpec_mem H spec _ hd
    rw [he]
    exact ⟨by simp [definedSpec, htd], List.mem_map.mpr ⟨t, ht, rfl⟩⟩
  · intro i s hs
    refine ⟨definedSpec H spec s, by simp [List.getElem?_map, hs], rfl, ?_, ?_, ?_⟩
    · intro hw; simp [definedSpec, hw]
    · intro hw hdp; simp [definedSpec, hw, hdp]
    · intro hw hdp; simp [definedSpec, hw, hdp]

/-- C3, witness: the example blueprint [RGBA8, Depth24Stencil8] is constructed without
abort and yields exactly one color specification, RGBA8 with filter `Linear` and wrap
`ClampToEdge`, and the depth specification Depth24Stencil8 with filter `Nearest` and wrap
`ClampToBorder`. -/
theorem constructor_derives_wrap_and_filter_witness :
    ∃ fb dev1,
      FrameBuffer.ctor TextureFormat.headers exampleSpec exampleDevice = .ok (fb, dev1) ∧
      (∀ s ∈ fb.m_ColorAttachmentsSpec,
        s.Filter = TextureFilter.Linear ∧ s ∈ fb.m_Spec.AttachmentsSpec.TexturesSpec) ∧
      fb.m_ColorAttachmentsSpec.map (fun s => (s.Format, s.Filter, s.Wrap)) =
        [(TextureFormat.RGBA8, TextureFilter.Linear, TextureWrap.ClampToEdge)] ∧
      (fb.m_DepthAttachmentSpec.Format, fb.m_DepthAttachmentSpec.Filter,
        fb.m_DepthAttachmentSpec.Wrap) =
        (TextureFormat.Depth24Stencil8, TextureFilter.Nearest, TextureWrap.ClampToBorder) :=
  ⟨_, _, rfl,
    (constructor_derives_wrap_and_filter TextureFormat.headers exampleSpec exampleDevice _ _
      (Eq.refl (FrameBuffer.ctor TextureFormat.headers exampleSpec exampleDevice))).1,
    by decide, by decide⟩

/-! ## Resize -/

/-- C4. When `Resize(width, height, depth)` completes, the top-level specification has the
size (width, height, depth) with its sample count and mip-map flag unchanged, and every entry
of the blueprint list, every color specification and the depth specification is the entry it
was before with width, height and depth replaced by the new size and every other field
(format, dimensionality, mip-map flag, wrap, filter) unchanged. -/
theorem Resize_sets_every_size {F : Type} [DecidableEq F] (H : Headers F)
    (fb fb2 : FrameBuffer F) (width height depth : Nat) (dev dev2 : Device F)
    (h : fb.Resize H width height depth dev = .ok (fb2, dev2)) :
    (fb2.m_Spec.Width = width ∧ fb2.m_Spec.Height = height ∧ fb2.m_Spec.Depth = depth ∧
      fb2.m_Spec.Samples = fb.m_Spec.Samples ∧ fb2.m_Spec.MipMaps = fb.m_Spec.MipMaps) ∧
    fb2.m_Spec.AttachmentsSpec.TexturesSpec =
      fb.m_Spec.AttachmentsSpec.TexturesSpec.map (fun s =>
        { Format := s.Format, TexType := s.TexType, Width := width, Height := height,
          Depth := depth, MipMaps := s.MipMaps, Wrap := s.Wrap, Filter := s.Filter }) ∧
    fb2.m_ColorAttachmentsSpec =
      fb.m_ColorAttachmentsSpec.map (fun s =>
        { Format := s.Format, TexType := s.TexType, Width := width, Height := height,
          Depth := depth, MipMaps := s.MipMaps, Wrap := s.Wrap, Filter := s.Filter }) ∧
    fb2.m_DepthAttachmentSpec =
      { Format := fb.m_DepthAttachmentSpec.Format, TexType := fb.m_DepthAttachmentSpec.TexType,
        Width := width, Height := height, Depth := depth,
        MipMaps := fb.m_DepthAttachmentSpec.MipMaps, Wrap := fb.m_DepthAttachmentSpec.Wrap,
        Filter := fb.m_DepthAttachmentSpec.Filter } := by
  unfold FrameBuffer.Resize at h
  obtain ⟨s1, s2, s3, -⟩ := Invalidate_specs H _ fb2 dev dev2 h
  rw [s1, s2, s3]
  exact ⟨⟨rfl, rfl, rfl, rfl, rfl⟩, rfl, rfl, rfl⟩

/-- C4, witness: resizing the constructed example framebuffer to 1024 by 768 by 1 completes,
and afterwards every attachment specification reports that size with its format, filter and
wrap mode unchanged. -/
theorem Resize_sets_every_size_witness :
    ∃ fb2 dev2,
      exampleBuilt.1.Resize TextureFormat.headers 1024 768 1 exampleBuilt.2 = .ok (fb2, dev2) ∧
      fb2.m_ColorAttachmentsSpec =
        exampleBuilt.1.m_ColorAttachmentsSpec.map (fun s =>
          { Format := s.Format, TexType := s.TexType, Width := 1024, Height := 768,
            Depth := 1, MipMaps := s.MipMaps, Wrap := s.Wrap, Filter := s.Filter }) ∧
      (fb2.m_Spec.AttachmentsSpec.TexturesSpec ++ fb2.m_ColorAttachmentsSpec ++
          [fb2.m_DepthAttachmentSpec]).map (fun s => (s.Width, s.Height, s.Depth)) =
        [(1024, 768, 1), (1024, 768, 1), (1024, 768, 1), (1024, 768, 1)] :=
  ⟨_, _, rfl,
    (Resize_sets_every_size TextureFormat.headers exampleBuilt.1 _ 1024 768 1 exampleBuilt.2 _
      (Eq.refl (exampleBuilt.1.Resize TextureFormat.headers 1024 768 1 exampleBuilt.2))).2.2.1,
    by decide⟩

/-! ## Repeated invalidation -/

theorem InvalidateTimes_invariant {F : Type} [DecidableEq F] (H : Headers F) (n : Nat) :
    ∀ (fb fb2 : FrameBuffer F) (dev dev2 : Device F),
      (fb.m_ID = 0 → fb.m_ColorAttachments = [] ∧ fb.m_DepthAttachment = none) →
      FrameBuffer.InvalidateTimes H (n + 1) fb dev = .ok (fb2, dev2) →
      fb2.m_ColorAttachments.length = fb2.m_ColorAttachmentsSpec.length ∧
      (fb2.m_DepthAttachment.isSome = true ↔
        H.IsDepthFormat fb2.m_DepthAttachmentSpec.Format = true) ∧
      fb2.m_ColorAttachmentsSpec = fb.m_ColorAttachmentsSpec ∧
      fb2.m_DepthAttachmentSpec = fb.m_DepthAttachmentSpec := by
  induction n with
  | zero =>
    intro fb fb2 dev dev2 hfresh h
    simp only [FrameBuffer.InvalidateTimes] at h
    cases hI : fb.Invalidate H dev with
    | error e => rw [hI] at h; cases h
    | ok r =>
      obtain ⟨fb1, dev1⟩ := r
      rw [hI] at h
      obtain ⟨-, a2, -, a4⟩ := Invalidate_attachments H fb fb1 dev dev1 hfresh hI
      obtain ⟨-, s2, s3, -⟩ := Invalidate_specs H fb fb1 dev dev1 hI
      cases h
      exact ⟨a2, a4, s2, s3⟩
  | succ n ih =>
    intro fb fb2 dev dev2 hfresh h
    rw [FrameBuffer.InvalidateTimes] at h
    cases hI : fb.Invalidate H dev with
    | error e => rw [hI] at h; cases h
    | ok r =>
      obtain ⟨fb1, dev1⟩ := r
      rw [hI] at h
      obtain ⟨a1, -, -, -⟩ := Invalidate_attachments H fb fb1 dev dev1 hfresh hI
      obtain ⟨-, s2, s3, -⟩ := Invalidate_specs H fb fb1 dev dev1 hI
      obtain ⟨i1, i2, i3, i4⟩ := ih fb1 fb2 dev1 dev2 (fun h0 => absurd h0 a1) h
      exact ⟨i1, i2, i3.trans s2, i4.trans s3⟩

/-- C5. Take a framebuffer that either has a device object or has no attachment resources
yet (the state in which the constructor calls `Invalidate`, and every state after a completed
`Invalidate`). After `n` consecutive `Invalidate` calls that complete, with `n` at least 1,
the number of color attachment resources equals the number of color specifications, a depth
attachment resource exists exactly when the depth specification has a depth format, and both
agree with the state after the first of these calls. -/
theorem InvalidateTimes_attachment_counts {F : Type} [DecidableEq F] (H : Headers F)
    (n : Nat) (fb fb2 : FrameBuffer F) (dev dev2 : Device F) (hn : 1 ≤ n)
    (hfresh : fb.m_ID = 0 → fb.m_ColorAttachments = [] ∧ fb.m_DepthAttachment = none)
    (h : FrameBuffer.InvalidateTimes H n fb dev = .ok (fb2, dev2)) :
    fb2.m_ColorAttachments.length = fb2.m_ColorAttachmentsSpec.length ∧
    (fb2.m_DepthAttachment.isSome = true ↔
      H.IsDepthFormat fb2.m_DepthAttachmentSpec.Format = true) ∧
    (∀ (fb1 : FrameBuffer F) (dev1 : Device F), fb.Invalidate H dev = .ok (fb1, dev1) →
      fb2.m_ColorAttachments.length = fb1.m_ColorAttachments.length ∧
      fb2.m_DepthAttachment.isSome = fb1.m_DepthAttachment.isSome) := by
  obtain ⟨m, rfl⟩ : ∃ m, n = m + 1 := ⟨n - 1, by omega⟩
  obtain ⟨i1, i2, i3, i4⟩ := InvalidateTimes_invariant H m fb fb2 dev dev2 hfresh h
  refine ⟨i1, i2, ?_⟩
  intro fb1 dev1 hI
  obtain ⟨-, a2, -, a4⟩ := Invalidate_attachments H fb fb1 dev dev1 hfresh hI
  obtain ⟨-, s2, s3, -⟩ := Invalidate_specs H fb fb1 dev dev1 hI
  refine ⟨by rw [i1, a2, i3, s2], ?_⟩
  rw [Bool.eq_iff_iff, i2, a4, i4, s3]

/-- C5, witness: three consecutive `Invalidate` calls on the example blueprint complete and
leave one color attachment resource and the depth attachment resource. -/
theorem InvalidateTimes_attachment_counts_witness :
    ∃ fb2 dev2,
      FrameBuffer.InvalidateTimes TextureFormat.headers 3
        (FrameBuffer.define TextureFormat.headers exampleSpec) exampleDevice = .ok (fb2, dev2) ∧
      fb2.m_ColorAttachments.length = fb2.m_ColorAttachmentsSpec.length ∧
      fb2.m_ColorAttachments.length = 1 ∧ fb2.m_DepthAttachment.isSome = true :=
  ⟨_, _, rfl,
    (InvalidateTimes_attachment_counts TextureFormat.headers 3
      (FrameBuffer.define TextureFormat.headers exampleSpec) _ exampleDevice _ (by decide)
      (fun _ => ⟨rfl, rfl⟩)
      (Eq.refl (FrameBuffer.InvalidateTimes TextureFormat.headers 3
        (FrameBuffer.define TextureFormat.headers exampleSpec) exampleDevice))).1,
    by decide, by decide⟩

/-! ## The cap of four color attachments -/

theorem configureDrawBuffers_error {F : Type} (fb : FrameBuffer F) (dev : Device F)
    (e : Abort × Device F) :
    fb.configureDrawBuffers dev = .error e ↔
      e = (Abort.Fatal fatalTooManyAttachments, dev) ∧ 4 < fb.m_ColorAttachments.length := by
  unfold FrameBuffer.configureDrawBuffers
  by_cases h1 : fb.m_ColorAttachments.length > 1
  · by_cases h4 : fb.m_ColorAttachments.length ≤ 4
    · simp only [h1, h4, if_true]
      constructor
      · intro h; cases h
      · intro h; omega
    · simp only [h1, h4, if_true, if_false, Except.error.injEq]
      constructor
      · intro h; exact ⟨h.symm, by omega⟩
      · intro h; exact h.1.symm
  · simp only [h1, if_false]
    split
    · constructor
      · intro h; cases h
      · intro h; omega
    · constructor
      · intro h; cases h
      · intro h; omega

theorem checkComplete_error {F : Type} (dev : Device F) (e : Abort × Device F)
    (h : checkComplete dev = .error e) : e.1 = Abort.Fatal fatalIncomplete := by
  unfold checkComplete at h
  simp only at h
  split at h
  · cases h
  · cases h; rfl

/-- For a framebuffer without a device object and without attachment resources, `Invalidate`
stops at the assertion on the number of color attachments exactly when there are more than
four color specifications. -/
theorem Invalidate_fatal_iff {F : Type} [DecidableEq F] (H : Headers F) (fb : FrameBuffer F)
    (dev : Device F) (hid : fb.m_ID = 0) (hatts : fb.m_ColorAttachments = []) :
    (∃ dev1, fb.Invalidate H dev = .error (Abort.Fatal fatalTooManyAttachments, dev1)) ↔
      4 < fb.m_ColorAttachmentsSpec.length := by
  have hrel : fb.releaseExisting dev = .ok (fb, dev) := by
    simp [FrameBuffer.releaseExisting, hid]
  rw [Invalidate_unfold, hrel]
  simp only
  obtain ⟨-, -, -, -, d5, -⟩ := invalidateDepthBlock_specs H
    (({ fb with m_ID := dev.names + 1 } : FrameBuffer F).invalidateColorBlock H
      (((dev.genName).2.call (Call.glGenFramebuffers (dev.names + 1))).call
        (Call.glBindFramebuffer FramebufferTarget.GL_FRAMEBUFFER (dev.names + 1)))).1
    (({ fb with m_ID := dev.names + 1 } : FrameBuffer F).invalidateColorBlock H
      (((dev.genName).2.call (Call.glGenFramebuffers (dev.names + 1))).call
        (Call.glBindFramebuffer FramebufferTarget.GL_FRAMEBUFFER (dev.names + 1)))).2
  obtain ⟨a1, -⟩ := invalidateColorBlock_attachments H
    ({ fb with m_ID := dev.names + 1 } : FrameBuffer F)
    (((dev.genName).2.call (Call.glGenFramebuffers (dev.names + 1))).call
      (Call.glBindFramebuffer FramebufferTarget.GL_FRAMEBUFFER (dev.names + 1)))
    (fun _ => hatts)
  have hlen := d5 ▸ a1
  revert hlen
  generalize (({ fb with m_ID := dev.names + 1 } : FrameBuffer F).invalidateColorBlock H
      (((dev.genName).2.call (Call.glGenFramebuffers (dev.names + 1))).call
        (Call.glBindFramebuffer FramebufferTarget.GL_FRAMEBUFFER
          (dev.names + 1)))).1.invalidateDepthBlock H
      (({ fb with m_ID := dev.names + 1 } : FrameBuffer F).invalidateColorBlock H
        (((dev.genName).2.call (Call.glGenFramebuffers (dev.names + 1))).call
          (Call.glBindFramebuffer FramebufferTarget.GL_FRAMEBUFFER (dev.names + 1)))).2 = p
  obtain ⟨fb3, dev3⟩ := p
  intro hlen
  simp only at hlen ⊢
  cases hcfg : fb3.configureDrawBuffers dev3 with
  | error e =>
    obtain ⟨rfl, h4⟩ := (configureDrawBuffers_error fb3 dev3 e).1 hcfg
    simp only
    exact ⟨fun _ => by omega, fun _ => ⟨dev3, rfl⟩⟩
  | ok dev4 =>
    have h4 : ¬ 4 < fb3.m_ColorAttachments.length := by
      intro h4
      have := (configureDrawBuffers_error fb3 dev3
        (Abort.Fatal fatalTooManyAttachments, dev3)).2 ⟨rfl, h4⟩
      rw [hcfg] at this
      cases this
    simp only
    cases hchk : checkComplete dev4 with
    | error e =>
      have := checkComplete_error dev4 e hchk
      simp only
      constructor
      · rintro ⟨dev1, hd⟩
        cases hd
        simp [fatalIncomplete, fatalTooManyAttachments] at this
      · intro h; omega
    | ok dev5 =>
      simp only
      constructor
      · rintro ⟨dev1, hd⟩; cases hd
      · intro h; omega

/-- C6 (amended). The constructor's `Invalidate` stops at the fatal assertion "Using more
than 4 color attachments in the Framebuffer!" if and only if the blueprint has more than four
entries whose format is not a depth format (entries of the format `None` included), which is
the number of entries of the color specification list; and the blueprint with five RGBA8
attachments is fatal in this way. -/
theorem ctor_fatal_iff_more_than_four {F : Type} [DecidableEq F] (H : Headers F)
    (spec : FrameBufferSpecification F) (dev : Device F) :
    ((∃ dev1, FrameBuffer.ctor H spec dev =
        .error (Abort.Fatal fatalTooManyAttachments, dev1)) ↔
      4 < (spec.AttachmentsSpec.TexturesSpec.filter
        (fun s => !H.IsDepthFormat s.Format)).length) ∧
    (4 < (spec.AttachmentsSpec.TexturesSpec.filter
        (fun s => !H.IsDepthFormat s.Format)).length ↔
      4 < (FrameBuffer.define H spec).m_ColorAttachmentsSpec.length) ∧
    (∃ dev1, FrameBuffer.ctor TextureFormat.headers fiveColorSpec exampleDevice =
      .error (Abort.Fatal fatalTooManyAttachments, dev1)) := by
  obtain ⟨-, d2, d3, -, d5, -⟩ := define_eq H spec
  have hlen : (FrameBuffer.define H spec).m_ColorAttachmentsSpec.length =
      (spec.AttachmentsSpec.TexturesSpec.filter (fun s => !H.IsDepthFormat s.Format)).length := by
    rw [d5]
    have : (fun s : TextureSpecification F => !H.IsDepthFormat s.Format) ∘ definedSpec H spec =
        (fun s => !H.IsDepthFormat s.Format) := by
      funext s; simp [definedSpec_format]
    rw [List.filter_map, List.length_map, this]
  refine ⟨?_, by rw [hlen], ⟨_, rfl⟩⟩
  unfold FrameBuffer.ctor
  rw [Invalidate_fatal_iff H _ dev d2 d3, hlen]

/-- C6, counterexample: the blueprint with four RGBA8 attachments and one attachment of the
format `None` has four entries whose format is neither a depth format nor `None`, that is,
four color attachments, and yet the constructor's `Invalidate` stops at the fatal assertion
on the number of color attachments. -/
theorem ctor_fatal_counterexample :
    (fourColorOneNoneSpec.AttachmentsSpec.TexturesSpec.filter
      (fun s => !TextureFormat.headers.IsDepthFormat s.Format &&
        decide (s.Format ≠ TextureFormat.headers.None))).length = 4 ∧
    ∃ dev1, FrameBuffer.ctor TextureFormat.headers fourColorOneNoneSpec exampleDevice =
      .error (Abort.Fatal fatalTooManyAttachments, dev1) :=
  ⟨by decide, _, rfl⟩

/-! ## Skipped color entries -/

/-- C7. The color block of `Invalidate` adds calls to the log such that: there is exactly one
warning per skipped entry (an entry of dimensionality `None`, of format `None`, or of a depth
format) and no other warning; the color slots that get a texture attached are exactly the
positions of the entries that are not skipped, in increasing order; storage is allocated
exactly for the entries that are not skipped, in order; and afterwards a skipped entry has a
null resource or a resource without storage, while every other entry has a resource with
storage, wherever in the list the skipped entries are. -/
theorem Invalidate_skips_bad_color_entries {F : Type} [DecidableEq F] (H : Headers F)
    (fb : FrameBuffer F) (dev : Device F) :
    (∃ X : List (Call F),
      (fb.invalidateColorBlock H dev).2.calls = dev.calls ++ X ∧
      X.filter Call.isWarning =
        List.replicate (fb.m_ColorAttachmentsSpec.countP (skippedEntry H))
          (Call.CORE_WARN warnColorAttachment) ∧
      X.filterMap Call.colorSlot =
        ((fb.m_ColorAttachmentsSpec.enum).filter (fun p => !skippedEntry H p.2)).map Prod.fst ∧
      X.filterMap Call.allocated =
        fb.m_ColorAttachmentsSpec.filter (fun s => !skippedEntry H s)) ∧
    (∀ (j : Nat) (s : TextureSpecification F), fb.m_ColorAttachmentsSpec[j]? = some s →
      (skippedEntry H s = true →
        (fb.invalidateColorBlock H dev).1.m_ColorAttachments[j]? = some none ∨
        ∃ t : Texture F, (fb.invalidateColorBlock H dev).1.m_ColorAttachments[j]? =
          some (some t) ∧ t.m_ID = 0) ∧
      (skippedEntry H s = false →
        ∃ t : Texture F, (fb.invalidateColorBlock H dev).1.m_ColorAttachments[j]? =
          some (some t) ∧ t.m_ID ≠ 0)) := by
  constructor
  · unfold FrameBuffer.invalidateColorBlock
    by_cases hs : fb.m_ColorAttachmentsSpec = []
    · exact ⟨[], by simp [hs]⟩
    · simp only [ne_eq, hs, not_false_eq_true, if_true]
      obtain ⟨X, hX, x1, x2, x3⟩ := invalidateColors_calls H fb.m_Spec.Samples
        fb.m_ColorAttachmentsSpec 0
        (resize fb.m_ColorAttachments fb.m_ColorAttachmentsSpec.length) dev
      exact ⟨X, hX, x2, by rw [x1]; rfl, x3⟩
  · intro j s hj
    by_cases hs : fb.m_ColorAttachmentsSpec = []
    · rw [hs] at hj; simp at hj
    · have hlen : 0 + fb.m_ColorAttachmentsSpec.length ≤
          (resize fb.m_ColorAttachments fb.m_ColorAttachmentsSpec.length).length := by
        rw [resize_length]; omega
      obtain ⟨-, e2⟩ := invalidateColors_entries H fb.m_Spec.Samples
        fb.m_ColorAttachmentsSpec 0
        (resize fb.m_ColorAttachments fb.m_ColorAttachmentsSpec.length) dev hlen
      obtain ⟨b1, b2⟩ := e2 j s hj
      rw [Nat.zero_add] at b1 b2
      unfold FrameBuffer.invalidateColorBlock
      simp only [ne_eq, hs, not_false_eq_true, if_true]
      refine ⟨fun hk => ?_, fun hk => ?_⟩
      · rw [b1 hk]
        cases hc : createTexture s fb.m_Spec.Samples with
        | none => exact Or.inl rfl
        | some t => exact Or.inr ⟨t, rfl, (createTexture_some s _ t hc).1⟩
      · obtain ⟨t, ht, hid, -⟩ := b2 hk
        exact ⟨t, ht, hid⟩

/-! ## Binding a cube face -/

/-- C8. Let `fb` be a framebuffer whose last `Invalidate` completed and `index` be smaller
than its color attachment count. Then the color specification at `index` exists; if it is
not of type `TEXTURECUBE`, `BindForDrawAttachmentCube` returns the device unchanged except
for exactly one warning appended to the log; if it is of type `TEXTURECUBE`, the resource at
`index` exists and the calls appended are, in order, the bind of the framebuffer as draw
target, the viewport call, and the attach of face `face` at level `level` to color slot 0,
none of them a warning. -/
theorem BindForDrawAttachmentCube_warns_or_binds {F : Type} [DecidableEq F] (H : Headers F)
    (fb0 fb : FrameBuffer F) (dev0 dev1 dev : Device F) (index face level : Nat)
    (hfresh : fb0.m_ID = 0 → fb0.m_ColorAttachments = [] ∧ fb0.m_DepthAttachment = none)
    (hinv : fb0.Invalidate H dev0 = .ok (fb, dev1))
    (hindex : index < fb.m_ColorAttachments.length) :
    ∃ spec : TextureSpecification F, fb.m_ColorAttachmentsSpec[index]? = some spec ∧
      (spec.TexType ≠ TextureType.TEXTURECUBE →
        fb.BindForDrawAttachmentCube index face level dev =
          .ok { dev with calls := dev.calls ++ [Call.CORE_WARN warnAttachmentType] }) ∧
      (spec.TexType = TextureType.TEXTURECUBE →
        ∃ t : Texture F, fb.m_ColorAttachments[index]? = some (some t) ∧
          fb.BindForDrawAttachmentCube index face level dev =
            .ok { dev with calls := dev.calls ++
              [Call.glBindFramebuffer FramebufferTarget.GL_DRAW_FRAMEBUFFER fb.m_ID,
               Call.glViewport 0 0 fb.m_Spec.Width
                 (if fb.m_Spec.Height > 0 then fb.m_Spec.Height else 1),
               Call.glFramebufferTexture2D (AttachmentPoint.GL_COLOR_ATTACHMENT 0)
                 (TexTarget.GL_TEXTURE_CUBE_MAP_POSITIVE_X face) t.m_ID level] }) := by
  obtain ⟨-, a2, a3, -⟩ := Invalidate_attachments H fb0 fb dev0 dev1 hfresh hinv
  have hi : index < fb.m_ColorAttachmentsSpec.length := a2 ▸ hindex
  refine ⟨fb.m_ColorAttachmentsSpec[index], List.getElem?_eq_getElem hi, ?_, ?_⟩
  · intro hty
    unfold FrameBuffer.BindForDrawAttachmentCube
    rw [List.getElem?_eq_getElem hi]
    simp [hty, Device.call]
  · intro hty
    obtain ⟨t, ht⟩ := a3 index _ (List.getElem?_eq_getElem hi) (by rw [hty]; decide)
    refine ⟨t, ht, ?_⟩
    unfold FrameBuffer.BindForDrawAttachmentCube
    rw [List.getElem?_eq_getElem hi]
    simp [hty, ht, Device.call, FrameBuffer.viewport]

/-- C8, witness: on the framebuffer built from a blueprint with a cube attachment at index 0
and a two-dimensional attachment at index 1, binding face 3 at level 2 of index 0 appends the
three calls, and the same request for index 1 appends one warning only. -/
theorem BindForDrawAttachmentCube_warns_or_binds_witness :
    FrameBuffer.ctor TextureFormat.headers cubeSpec exampleDevice = .ok cubeBuilt ∧
    (cubeBuilt.1.BindForDrawAttachmentCube 0 3 2 cubeBuilt.2).toOption.map
        (fun d => d.calls.drop cubeBuilt.2.calls.length) =
      some [Call.glBindFramebuffer FramebufferTarget.GL_DRAW_FRAMEBUFFER 1,
        Call.glViewport 0 0 512 512,
        Call.glFramebufferTexture2D (AttachmentPoint.GL_COLOR_ATTACHMENT 0)
          (TexTarget.GL_TEXTURE_CUBE_MAP_POSITIVE_X 3) 2 2] ∧
    (cubeBuilt.1.BindForDrawAttachmentCube 1 3 2 cubeBuilt.2).toOption.map
        (fun d => d.calls.drop cubeBuilt.2.calls.length) =
      some [Call.CORE_WARN warnAttachmentType] ∧
    (∃ spec : TextureSpecification TextureFormat,
      cubeBuilt.1.m_ColorAttachmentsSpec[1]? = some spec ∧
      (spec.TexType ≠ TextureType.TEXTURECUBE →
        cubeBuilt.1.BindForDrawAttachmentCube 1 3 2 cubeBuilt.2 =
          .ok { cubeBuilt.2 with
            calls := cubeBuilt.2.calls ++ [Call.CORE_WARN warnAttachmentType] })) :=
  ⟨rfl, by decide, by decide,
    (BindForDrawAttachmentCube_warns_or_binds TextureFormat.headers
      (FrameBuffer.define TextureFormat.headers cubeSpec) cubeBuilt.1 exampleDevice cubeBuilt.2
      cubeBuilt.2 1 3 2 (fun _ => ⟨rfl, rfl⟩)
      (show FrameBuffer.ctor TextureFormat.headers cubeSpec exampleDevice = .ok cubeBuilt
        from rfl)
      (by decide)).imp
      (fun _ hspec => ⟨hspec.1, hspec.2.1⟩)⟩

/-! ## SaveAttachment -/

theorem toLower_eq_iff (text target : String)
    (htarget : target.data.map Char.toLower = target.data) :
    toLower text = target ↔ equalIgnoringCase text target = true := by
  unfold toLower equalIgnoringCase
  rw [htarget, beq_iff_eq]
  constructor
  · intro h
    rw [← h]
  · intro h
    rw [h]

/-- C9. For a color attachment at `index` whose format has a channel count between 1 and 4,
`SaveAttachment` completes and appends to the log, in order: one scratch-buffer allocation,
the read-back calls, the vertical-flip setting, one further entry `encode`, and one
scratch-buffer release. The entry `encode` is chosen by the extension of the path compared
without regard to case: the PNG encoder when it equals ".png", the JPEG encoder with quality
100 when it equals ".jpg" or ".jpeg", the HDR encoder when it equals ".hdr", and a warning
when it equals none of the four, in which case no encoder is called. In every case the log
gains exactly one allocation and exactly one release. The stride and the allocation size are
the products as 32-bit `int` arithmetic yields them. -/
theorem SaveAttachment_selects_encoder {F : Type} [DecidableEq F] (H : Headers F)
    (fb : FrameBuffer F) (index : Nat) (path : Path) (dev : Device F)
    (spec : TextureSpecification F)
    (hspec : fb.m_ColorAttachmentsSpec[index]? = some spec)
    (hchannels : 0 < H.TextureFormatToChannelNumber spec.Format ∧
      H.TextureFormatToChannelNumber spec.Format ≤ 4) :
    ∃ (encode : Call F) (added : List (Call F)),
      fb.SaveAttachment H index path dev = .ok { dev with calls := dev.calls ++ added } ∧
      added =
        [Call.AllocateBufferForFormat spec.Format
           (wrapInt32 (wrapInt32 (H.TextureFormatToChannelNumber spec.Format *
             (fb.m_Spec.Width : Int)) * (fb.m_Spec.Height : Int))),
         Call.glBindFramebuffer FramebufferTarget.GL_READ_FRAMEBUFFER fb.m_ID,
         Call.glReadBuffer (ColorBuffer.GL_COLOR_ATTACHMENT index),
         Call.glPixelStorei_PACK_ALIGNMENT (H.TextureFormatToChannelNumber spec.Format),
         Call.glReadPixels 0 0 fb.m_Spec.Width fb.m_Spec.Height spec.Format,
         Call.stbi_flip_vertically_on_write true,
         encode,
         Call.DeallocateBufferForFormat spec.Format] ∧
      (equalIgnoringCase path.extension ".png" = true →
        encode = Call.stbi_write_png path.string fb.m_Spec.Width fb.m_Spec.Height
          (H.TextureFormatToChannelNumber spec.Format)
          (wrapInt32 (H.TextureFormatToChannelNumber spec.Format * (fb.m_Spec.Width : Int)))) ∧
      (equalIgnoringCase path.extension ".jpg" = true ∨
          equalIgnoringCase path.extension ".jpeg" = true →
        encode = Call.stbi_write_jpg path.string fb.m_Spec.Width fb.m_Spec.Height
          (H.TextureFormatToChannelNumber spec.Format) 100) ∧
      (equalIgnoringCase path.extension ".hdr" = true →
        encode = Call.stbi_write_hdr path.string fb.m_Spec.Width fb.m_Spec.Height
          (H.TextureFormatToChannelNumber spec.Format)) ∧
      ((∀ known ∈ [".png", ".jpg", ".jpeg", ".hdr"],
          equalIgnoringCase path.extension known = false) →
        encode = Call.CORE_WARN warnFileFormat ∧ added.countP Call.isEncoder = 0) ∧
      added.countP Call.isAllocation = 1 ∧ added.countP Call.isDeallocation = 1 := by
  have hc : ¬ ¬ (H.TextureFormatToChannelNumber spec.Format > 0 ∧
      H.TextureFormatToChannelNumber spec.Format ≤ 4) := not_not.mpr hchannels
  have epng := toLower_eq_iff path.extension ".png" (by decide)
  have ejpg := toLower_eq_iff path.extension ".jpg" (by decide)
  have ejpeg := toLower_eq_iff path.extension ".jpeg" (by decide)
  have ehdr := toLower_eq_iff path.extension ".hdr" (by decide)
  refine ⟨(writeImage (toLower path.extension) path fb.m_Spec.Width fb.m_Spec.Height
      (H.TextureFormatToChannelNumber spec.Format)
      (wrapInt32 (H.TextureFormatToChannelNumber spec.Format * (fb.m_Spec.Width : Int)))
      { dev with calls := [] }).calls.getLast?.getD (Call.CORE_WARN warnFileFormat),
    _, ?_, rfl, ?_⟩
  · unfold FrameBuffer.SaveAttachment
    rw [hspec]
    simp only [hc, if_false]
    unfold writeImage
    split_ifs <;>
      simp [Device.call, FrameBuffer.BindForReadAttachment]
  · rw [← epng, ← ejpg, ← ejpeg, ← ehdr]
    have hnone : (∀ known ∈ [".png", ".jpg", ".jpeg", ".hdr"],
        equalIgnoringCase path.extension known = false) →
        toLower path.extension ≠ ".png" ∧ toLower path.extension ≠ ".jpg" ∧
        toLower path.extension ≠ ".jpeg" ∧ toLower path.extension ≠ ".hdr" := by
      intro h
      refine ⟨?_, ?_, ?_, ?_⟩
      · intro e; have := h ".png" (by simp); rw [epng.1 e] at this; cases this
      · intro e; have := h ".jpg" (by simp); rw [ejpg.1 e] at this; cases this
      · intro e; have := h ".jpeg" (by simp); rw [ejpeg.1 e] at this; cases this
      · intro e; have := h ".hdr" (by simp); rw [ehdr.1 e] at this; cases this
    unfold writeImage
    by_cases h1 : toLower path.extension = ".png"
    · refine ⟨?_, ?_, ?_, ?_, ?_, ?_⟩
      · intro _; simp [h1, Device.call]
      · intro h; rcases h with h | h <;> rw [h1] at h <;> exact absurd h (by decide)
      · intro h; rw [h1] at h; exact absurd h (by decide)
      · intro h; exact absurd h1 (hnone h).1
      · simp [h1, Device.call, Call.isAllocation]
      · simp [h1, Device.call, Call.isDeallocation]
    · by_cases h2 : toLower path.extension = ".jpg" ∨ toLower path.extension = ".jpeg"
      · refine ⟨fun h => absurd h h1, ?_, ?_, ?_, ?_, ?_⟩
        · intro _; simp [h1, h2, Device.call]
        · intro h
          rcases h2 with h2 | h2 <;> rw [h2] at h <;> exact absurd h (by decide)
        · intro h
          rcases h2 with h2 | h2
          · exact absurd h2 (hnone h).2.1
          · exact absurd h2 (hnone h).2.2.1
        · simp [h1, h2, Device.call, Call.isAllocation]
        · simp [h1, h2, Device.call, Call.isDeallocation]
      · by_cases h3 : toLower path.extension = ".hdr"
        · refine ⟨fun h => absurd h h1, fun h => absurd h h2, ?_, ?_, ?_, ?_⟩
          · intro _; simp [h1, h2, h3, Device.call]
          · intro h; exact absurd h3 (hnone h).2.2.2
          · simp [h1, h2, h3, Device.call, Call.isAllocation]
          · simp [h1, h2, h3, Device.call, Call.isDeallocation]
        · refine ⟨fun h => absurd h h1, fun h => absurd h h2, fun h => absurd h h3,
            ?_, ?_, ?_⟩
          · intro _
            simp [h1, h2, h3, Device.call, Call.isEncoder]
          · simp [h1, h2, h3, Device.call, Call.isAllocation]
          · simp [h1, h2, h3, Device.call, Call.isDeallocation]

/-- C9, witness: saving attachment 0 of the constructed example framebuffer (RGBA8, four
channels, 800 by 600) to a path whose extension is written ".PNG" completes; the calls it
adds are one allocation of 1920000 elements, the read-back, the flip setting, the PNG
encoder call with stride 3200, and one release. -/
theorem SaveAttachment_selects_encoder_witness :
    equalIgnoringCase examplePath.extension ".png" = true ∧
    examplePath.extension ≠ ".png" ∧
    exampleBuilt.1.SaveAttachment TextureFormat.headers 0 examplePath exampleBuilt.2 =
      .ok { exampleBuilt.2 with calls := exampleBuilt.2.calls ++
        [Call.AllocateBufferForFormat TextureFormat.RGBA8 1920000,
         Call.glBindFramebuffer FramebufferTarget.GL_READ_FRAMEBUFFER 1,
         Call.glReadBuffer (ColorBuffer.GL_COLOR_ATTACHMENT 0),
         Call.glPixelStorei_PACK_ALIGNMENT 4,
         Call.glReadPixels 0 0 800 600 TextureFormat.RGBA8,
         Call.stbi_flip_vertically_on_write true,
         Call.stbi_write_png "frame.PNG" 800 600 4 3200,
         Call.DeallocateBufferForFormat TextureFormat.RGBA8] } := by
  refine ⟨by decide, by decide, ?_⟩
  obtain ⟨encode, added, hrun, hadded, hpng, -⟩ :=
    SaveAttachment_selects_encoder TextureFormat.headers exampleBuilt.1 0 examplePath
      exampleBuilt.2 (definedSpec TextureFormat.headers exampleSpec
        (TextureFormat.attachment TextureFormat.RGBA8 TextureType.TEXTURE2D))
      (by decide) (by decide)
  rw [hrun, hadded, hpng (by decide)]
  rfl

/-- The sizes of `SaveAttachment` for a four-channel attachment of 32768 by 32768: the
stride is 131072 and the allocation size wraps to 0. -/
theorem wrapInt32_large :
    wrapInt32 (4 * 32768) = 131072 ∧ wrapInt32 (wrapInt32 (4 * 32768) * 32768) = 0 := by
  decide

/-! ## Blit -/

/-- C10. `Blit` stops at the fatal assertion if and only if the source or the destination
is null, and then the device is as it was before the call (no device call has been issued).
For a non-null pair it completes and appends exactly four calls: the bind of the source as
read framebuffer, the bind of the destination as draw framebuffer, one copy from
(0,0)-(source width, source height) to (0,0)-(destination width, destination height) with
the mask of `buffersActive` and the given filter, and the bind of framebuffer 0. -/
theorem Blit_asserts_then_copies {F : Type} (src dst : Option (FrameBuffer F))
    (filter : TextureFilter) (buffersActive : BufferState) (dev : Device F) :
    ((∃ e, FrameBuffer.Blit src dst filter buffersActive dev = .error e) ↔
      (src = none ∨ dst = none)) ∧
    ((src = none ∨ dst = none) →
      FrameBuffer.Blit src dst filter buffersActive dev =
        .error (Abort.Fatal fatalBlitUndefined, dev)) ∧
    (∀ s d : FrameBuffer F, src = some s → dst = some d →
      FrameBuffer.Blit src dst filter buffersActive dev =
        .ok { dev with calls := dev.calls ++
          [Call.glBindFramebuffer FramebufferTarget.GL_READ_FRAMEBUFFER s.m_ID,
           Call.glBindFramebuffer FramebufferTarget.GL_DRAW_FRAMEBUFFER d.m_ID,
           Call.glBlitFramebuffer 0 0 s.m_Spec.Width s.m_Spec.Height
             0 0 d.m_Spec.Width d.m_Spec.Height buffersActive filter,
           Call.glBindFramebuffer FramebufferTarget.GL_FRAMEBUFFER 0] }) := by
  cases src with
  | none =>
    refine ⟨⟨fun _ => Or.inl rfl, fun _ => ⟨_, rfl⟩⟩, fun _ => rfl, ?_⟩
    intro s d hs; cases hs
  | some s =>
    cases dst with
    | none =>
      refine ⟨⟨fun _ => Or.inr rfl, fun _ => ⟨_, rfl⟩⟩, fun _ => rfl, ?_⟩
      intro s d _ hd; cases hd
    | some d =>
      refine ⟨⟨?_, ?_⟩, ?_, ?_⟩
      · rintro ⟨e, he⟩; cases he
      · rintro (h | h) <;> cases h
      · rintro (h | h) <;> cases h
      · intro s1 d1 hs hd
        cases hs; cases hd
        simp [FrameBuffer.Blit, Device.call]

/-! ## Library -/

theorem Library.subscript_of_exists {T : Type} [Inhabited T] (lib : Library T) (name : String)
    (object : T) (h : lib.m_Objects name = some object) :
    lib.subscript name = (object, lib) := by
  simp [Library.subscript, h]

/-- C11. If the name already exists, `Add` logs one warning and returns the library
unchanged. If the name does not exist, `Add` logs nothing; afterwards the name exists, `Get`
of the name returns the added object (without changing the library or logging anything), the
object stored under every other name is what it was, and the name of the object kind is
unchanged. -/
theorem Library.Add_warns_or_inserts {T : Type} [Inhabited T] (lib : Library T) (name : String)
    (object : T) (warnings later : List String) :
    (lib.Exists name = true →
      lib.Add name object warnings =
        (lib, warnings ++ [lib.m_ObjectsName ++ " already exists!"])) ∧
    (lib.Exists name = false →
      (lib.Add name object warnings).2 = warnings ∧
      (lib.Add name object warnings).1.Exists name = true ∧
      (lib.Add name object warnings).1.Get name later =
        (object, (lib.Add name object warnings).1, later) ∧
      (∀ n : String, n ≠ name →
        (lib.Add name object warnings).1.m_Objects n = lib.m_Objects n) ∧
      (lib.Add name object warnings).1.m_ObjectsName = lib.m_ObjectsName) := by
  constructor
  · intro h
    simp [Library.Add, h]
  · intro h
    have hadd : lib.Add name object warnings = (lib.assign name object, warnings) := by
      simp [Library.Add, h]
    rw [hadd]
    have hget : (lib.assign name object).m_Objects name = some object := by
      simp [Library.assign]
    refine ⟨rfl, ?_, ?_, ?_, rfl⟩
    · simp [Library.Exists, hget]
    · simp [Library.Get, Library.Exists, hget,
        Library.subscript_of_exists (lib.assign name object) name object hget]
    · intro n hn
      simp [Library.assign, hn]

/-- C11, witness: adding 7 under "a" to the empty library makes "a" exist with object 7, and
adding 9 under "a" afterwards logs the warning and leaves the library as it is. -/
theorem Library.Add_warns_or_inserts_witness :
    (emptyLibrary.Exists "a" = false ∧
      (emptyLibrary.Add "a" 7 []).1.Exists "a" = true ∧
      (emptyLibrary.Add "a" 7 []).1.Get "a" [] = (7, (emptyLibrary.Add "a" 7 []).1, [])) ∧
    ((emptyLibrary.Add "a" 7 []).1.Exists "a" = true ∧
      (emptyLibrary.Add "a" 7 []).1.Add "a" 9 [] =
        ((emptyLibrary.Add "a" 7 []).1, ["Object already exists!"])) :=
  ⟨⟨rfl,
      ((Library.Add_warns_or_inserts emptyLibrary "a" 7 [] []).2 rfl).2.1,
      ((Library.Add_warns_or_inserts emptyLibrary "a" 7 [] []).2 rfl).2.2.1⟩,
    ⟨by decide,
      (Library.Add_warns_or_inserts (emptyLibrary.Add "a" 7 []).1 "a" 9 [] []).1 (by decide)⟩⟩

/-- What `Get` does to the registry: for a name that exists the library is returned as it
is and nothing is logged; for a name that does not exist one warning is logged and the name
exists afterwards, holding a value-initialised object, while all other names are as before. -/
theorem Library.Get_registry {T : Type} [Inhabited T] (lib : Library T) (name : String)
    (warnings : List String) :
    (lib.Exists name = true →
      (lib.Get name warnings).2 = (lib, warnings)) ∧
    (lib.Exists name = false →
      (lib.Get name warnings).1 = default ∧
      (lib.Get name warnings).2.2 = warnings ++ [lib.m_ObjectsName ++ " not found!"] ∧
      (lib.Get name warnings).2.1.Exists name = true ∧
      (∀ n : String, n ≠ name →
        (lib.Get name warnings).2.1.Exists n = lib.Exists n)) := by
  constructor
  · intro h
    cases hm : lib.m_Objects name with
    | none => simp [Library.Exists, hm] at h
    | some object => simp [Library.Get, Library.Exists, Library.subscript, hm]
  · intro h
    have hm : lib.m_Objects name = none := by
      cases hm : lib.m_Objects name with
      | none => rfl
      | some object => simp [Library.Exists, hm] at h
    refine ⟨?_, ?_, ?_, ?_⟩
    · simp [Library.Get, Library.subscript, hm]
    · simp [Library.Get, Library.Exists, Library.subscript, hm]
    · simp [Library.Get, Library.Exists, Library.subscript, Library.assign, hm]
    · intro n hn
      simp [Library.Get, Library.Exists, Library.subscript, Library.assign, hm, hn]

/-- C13, the code at the failing input: in the empty library "missing" does not exist;
`Get("missing")` logs the warning, and afterwards "missing" exists and holds the
value-initialised object, so that a later `Add("missing", 5)` is refused with a warning. -/
theorem Library.Get_missing_inserts :
    emptyLibrary.Exists "missing" = false ∧
    (emptyLibrary.Get "missing" []).2.2 = ["Object not found!"] ∧
    (emptyLibrary.Get "missing" []).2.1.Exists "missing" = true ∧
    (emptyLibrary.Get "missing" []).2.1.m_Objects "missing" = some 0 ∧
    ((emptyLibrary.Get "missing" []).2.1.Add "missing" 5 []).2 = ["Object already exists!"] := by
  refine ⟨by decide, by decide, by decide, by decide, by decide⟩

/-! ## Releasing a framebuffer without depth attachment -/

theorem ReleaseFramebuffer_null_depth {F : Type} (fb : FrameBuffer F) (dev : Device F)
    (h : fb.m_DepthAttachment = none) :
    fb.ReleaseFramebuffer dev =
      .error (Abort.NullDereference, dev.call (Call.glDeleteFramebuffers fb.m_ID)) := by
  simp [FrameBuffer.ReleaseFramebuffer, h]

theorem Invalidate_null_depth {F : Type} [DecidableEq F] (H : Headers F) (fb : FrameBuffer F)
    (dev : Device F) (hid : fb.m_ID ≠ 0) (h : fb.m_DepthAttachment = none) :
    fb.Invalidate H dev =
      .error (Abort.NullDereference, dev.call (Call.glDeleteFramebuffers fb.m_ID)) := by
  have hrel : fb.releaseExisting dev =
      .error (Abort.NullDereference, dev.call (Call.glDeleteFramebuffers fb.m_ID)) := by
    simp [FrameBuffer.releaseExisting, hid, ReleaseFramebuffer_null_depth fb dev h]
  rw [Invalidate_unfold, hrel]

/-- For every blueprint without a depth-format entry: when the constructor completes, the
framebuffer has a device object and a null depth attachment, and each way of re-invalidating
it (`Invalidate`, `Resize`, `AdjustSampleCount`) stops in `ReleaseFramebuffer` at the call
through the null depth attachment, right after `glDeleteFramebuffers`. -/
theorem reinvalidate_without_depth {F : Type} [DecidableEq F] (H : Headers F)
    (spec : FrameBufferSpecification F) (dev dev1 dev2 : Device F) (fb : FrameBuffer F)
    (width height depth samples : Nat)
    (hnone : ∀ s ∈ spec.AttachmentsSpec.TexturesSpec, H.IsDepthFormat s.Format = false)
    (h : FrameBuffer.ctor H spec dev = .ok (fb, dev1)) :
    fb.m_ID ≠ 0 ∧ fb.m_DepthAttachment = none ∧
    fb.Invalidate H dev2 =
      .error (Abort.NullDereference, dev2.call (Call.glDeleteFramebuffers fb.m_ID)) ∧
    fb.Resize H width height depth dev2 =
      .error (Abort.NullDereference, dev2.call (Call.glDeleteFramebuffers fb.m_ID)) ∧
    fb.AdjustSampleCount H samples dev2 =
      .error (Abort.NullDereference, dev2.call (Call.glDeleteFramebuffers fb.m_ID)) := by
  obtain ⟨-, d2, d3, d4, -, -⟩ := define_eq H spec
  obtain ⟨a1, -, -, a4⟩ := Invalidate_attachments H _ fb dev dev1
    (fun _ => ⟨d3, d4⟩) h
  obtain ⟨-, c2, c3⟩ := ctor_specs H spec dev dev1 fb h
  have hfil : (spec.AttachmentsSpec.TexturesSpec.map (definedSpec H spec)).filter
      (fun s => H.IsDepthFormat s.Format) = [] := by
    simp only [List.filter_eq_nil_iff, List.mem_map]
    rintro x ⟨s, hs, rfl⟩
    simp [definedSpec_format, hnone s hs]
  have hdepth : fb.m_DepthAttachment = none := by
    have hfmt : H.IsDepthFormat fb.m_DepthAttachmentSpec.Format = false := by
      rw [c3, hfil]
      simp [H.default_format, H.none_not_depth]
    cases hd : fb.m_DepthAttachment with
    | none => rfl
    | some t =>
      have := a4.1 (by simp [hd])
      rw [hfmt] at this
      cases this
  refine ⟨a1, hdepth, Invalidate_null_depth H fb dev2 a1 hdepth, ?_, ?_⟩
  · unfold FrameBuffer.Resize
    exact Invalidate_null_depth H _ dev2 a1 hdepth
  · unfold FrameBuffer.AdjustSampleCount
    exact Invalidate_null_depth H _ dev2 a1 hdepth

/-- C12, the code at the failing input: the constructor completes on the blueprint with one
RGBA8 attachment and no depth attachment, leaving a null depth attachment; a second
`Invalidate`, a `Resize` and an `AdjustSampleCount` on that framebuffer each stop with a
null dereference after the single call `glDeleteFramebuffers`. -/
theorem reinvalidate_color_only_dereferences_null :
    FrameBuffer.ctor TextureFormat.headers colorOnlySpec exampleDevice = .ok colorOnlyBuilt ∧
    colorOnlyBuilt.1.m_DepthAttachment = none ∧
    colorOnlyBuilt.1.Invalidate TextureFormat.headers colorOnlyBuilt.2 =
      .error (Abort.NullDereference,
        colorOnlyBuilt.2.call (Call.glDeleteFramebuffers colorOnlyBuilt.1.m_ID)) ∧
    colorOnlyBuilt.1.Resize TextureFormat.headers 1024 768 0 colorOnlyBuilt.2 =
      .error (Abort.NullDereference,
        colorOnlyBuilt.2.call (Call.glDeleteFramebuffers colorOnlyBuilt.1.m_ID)) ∧
    colorOnlyBuilt.1.AdjustSampleCount TextureFormat.headers 4 colorOnlyBuilt.2 =
      .error (Abort.NullDereference,
        colorOnlyBuilt.2.call (Call.glDeleteFramebuffers colorOnlyBuilt.1.m_ID)) :=
  ⟨rfl, rfl, rfl, rfl, rfl⟩

/-! ## Draw buffers -/

theorem generateMipmaps_present {F : Type} (textures : List (Texture F)) :
    ∀ dev : Device F, generateMipmaps (textures.map some) dev =
      .ok { dev with calls := dev.calls ++ textures.flatMap (fun t =>
        [Call.BindTexture t.m_ID, Call.glGenerateMipmap t.TextureTarget]) } := by
  induction textures with
  | nil => intro dev; simp [generateMipmaps]
  | cons t rest ih =>
    intro dev
    simp only [List.map_cons, generateMipmaps, ih, List.flatMap_cons]
    simp [Device.call]

theorem generateMipmaps_null {F : Type} (atts : List (Option (Texture F))) :
    ∀ dev : Device F, none ∈ atts →
      ∃ (stopped : Device F) (added : List (Call F)),
        generateMipmaps atts dev = .error (Abort.NullDereference, stopped) ∧
        stopped.calls = dev.calls ++ added ∧
        ∀ c ∈ added, c ≠ Call.glBindFramebuffer FramebufferTarget.GL_FRAMEBUFFER 0 := by
  induction atts with
  | nil => intro dev h; cases h
  | cons a rest ih =>
    intro dev h
    cases a with
    | none => exact ⟨dev, [], rfl, by simp, by simp⟩
    | some t =>
      have hrest : none ∈ rest := by
        rcases List.mem_cons.1 h with h | h
        · cases h
        · exact h
      obtain ⟨stopped, added, hs, hcalls, hne⟩ := ih
        ((dev.call (Call.BindTexture t.m_ID)).call (Call.glGenerateMipmap t.TextureTarget)) hrest
      refine ⟨stopped, Call.BindTexture t.m_ID :: Call.glGenerateMipmap t.TextureTarget :: added,
        by simpa [generateMipmaps] using hs, by simp [hcalls, Device.call], ?_⟩
      intro c hc
      simp only [List.mem_cons] at hc
      rcases hc with rfl | rfl | hc
      · simp
      · simp
      · exact hne c hc

/-- What `Unbind` does on a framebuffer whose color attachment resources all exist: it
completes; when the mip-map flag is set and `genMipMaps` is true it binds each color
attachment and regenerates its mip chain, once each and in attachment order, and otherwise
it regenerates none; in both cases the last call binds framebuffer 0. -/
theorem Unbind_present {F : Type} (fb : FrameBuffer F) (textures : List (Texture F))
    (genMipMaps : Bool) (dev : Device F) (h : fb.m_ColorAttachments = textures.map some) :
    fb.Unbind genMipMaps dev =
      .ok { dev with calls := dev.calls ++
        (if fb.m_Spec.MipMaps = true ∧ genMipMaps = true then
          textures.flatMap (fun t =>
            [Call.BindTexture t.m_ID, Call.glGenerateMipmap t.TextureTarget])
         else []) ++
        [Call.glBindFramebuffer FramebufferTarget.GL_FRAMEBUFFER 0] } := by
  unfold FrameBuffer.Unbind
  by_cases hm : fb.m_Spec.MipMaps = true ∧ genMipMaps = true
  · simp [hm.1, hm.2, h, generateMipmaps_present, Device.call]
  · have : (fb.m_Spec.MipMaps && genMipMaps) = false := by
      cases h1 : fb.m_Spec.MipMaps <;> cases h2 : genMipMaps <;> simp_all
    simp [this, hm, Device.call]

/-- What `Unbind` does on a mip-mapped framebuffer that has a null color attachment
resource when `genMipMaps` is true: it stops at the null pointer, and none of the calls it
has issued until then binds framebuffer 0. -/
theorem Unbind_null {F : Type} (fb : FrameBuffer F) (dev : Device F)
    (hmip : fb.m_Spec.MipMaps = true) (hnull : none ∈ fb.m_ColorAttachments) :
    ∃ (stopped : Device F) (added : List (Call F)),
      fb.Unbind true dev = .error (Abort.NullDereference, stopped) ∧
      stopped.calls = dev.calls ++ added ∧
      ∀ c ∈ added, c ≠ Call.glBindFramebuffer FramebufferTarget.GL_FRAMEBUFFER 0 := by
  obtain ⟨stopped, added, hs, hcalls, hne⟩ := generateMipmaps_null fb.m_ColorAttachments dev hnull
  exact ⟨stopped, added, by simp [FrameBuffer.Unbind, hmip, hs], hcalls, hne⟩

/-- C15, the code at the failing input: the constructor completes on the mip-mapped
blueprint whose second color attachment has the dimensionality `None`, leaving a null
resource at index 1; `Unbind(true)` then regenerates the mip chain of attachment 0 and stops
at the null pointer, so the calls it adds to the log are the bind and the mip-map
regeneration of attachment 0 only, and framebuffer 0 is never bound. -/
theorem Unbind_null_attachment_dereferences_null :
    FrameBuffer.ctor TextureFormat.headers nullAttachmentSpec exampleDevice =
      .ok nullAttachmentBuilt ∧
    nullAttachmentBuilt.1.m_Spec.MipMaps = true ∧
    nullAttachmentBuilt.1.m_ColorAttachments.map (fun a => a.isSome) = [true, false] ∧
    nullAttachmentBuilt.1.Unbind true nullAttachmentBuilt.2 =
      .error (Abort.NullDereference,
        { nullAttachmentBuilt.2 with calls := nullAttachmentBuilt.2.calls ++
          [Call.BindTexture 2,
           Call.glGenerateMipmap (TexTarget.TextureTarget (TextureKind.Texture2D 1))] }) :=
  ⟨rfl, rfl, by decide, rfl⟩

/-! ## TextureCube::LoadFromFile -/

theorem decodeCalls_cons {F : Type} (C : Codec F) (flip : Bool) (directory file : String)
    (rest : List String) :
    decodeCalls C flip directory (file :: rest) =
      LoaderCall.stbi_set_flip_vertically_on_load flip :: C.decodeCall directory file ::
        decodeCalls C flip directory rest := by
  simp [decodeCalls, List.flatMap_cons]

/-- The loop over files that all decode and all leave a supported format. -/
theorem loadFaces_all {F : Type} [DecidableEq F] (H : Headers F) (C : Codec F)
    (directory : String) (files : List String) :
    ∀ (images : List DecodedImage) (tc : TextureCube F) (data : List Nat)
      (log : List (LoaderCall F)),
      files.map (C.decode directory) = images.map some →
      formatsSupported H C tc.m_Spec images = true →
      loadFaces H C directory files tc data log =
        .ok (some (data ++ images.map (fun image => image.data)),
          { tc with m_Spec := specAfter C tc.m_Spec images },
          log ++ decodeCalls C tc.m_Flip directory files) := by
  induction files with
  | nil =>
    intro images tc data log hdec _
    cases images with
    | nil => simp [loadFaces, specAfter, decodeCalls]
    | cons image rest => simp at hdec
  | cons file rest ih =>
    intro images tc data log hdec hfmt
    cases images with
    | nil => simp at hdec
    | cons image others =>
      simp only [List.map_cons, List.cons.injEq] at hdec
      obtain ⟨hfile, hrest⟩ := hdec
      simp only [formatsSupported, Bool.and_eq_true, decide_eq_true_eq] at hfmt
      obtain ⟨hne, hothers⟩ := hfmt
      rw [loadFaces]
      simp only [hfile, hne, if_false]
      rw [ih others _ _ _ hrest hothers]
      simp [specAfter, decodeCalls_cons, List.append_assoc]

/-- The loop stopping at the first file that fails to decode. -/
theorem loadFaces_decode_failure {F : Type} [DecidableEq F] (H : Headers F) (C : Codec F)
    (directory : String) (pre : List String) :
    ∀ (file : String) (post : List String) (images : List DecodedImage) (tc : TextureCube F)
      (data : List Nat) (log : List (LoaderCall F)),
      pre.map (C.decode directory) = images.map some →
      formatsSupported H C tc.m_Spec images = true →
      C.decode directory file = none →
      loadFaces H C directory (pre ++ file :: post) tc data log =
        .ok (none, { tc with m_Spec := specAfter C tc.m_Spec images },
          log ++ decodeCalls C tc.m_Flip directory (pre ++ [file]) ++
            [LoaderCall.CORE_WARN ("Failed to load: " ++ C.filename directory file)]) := by
  induction pre with
  | nil =>
    intro file post images tc data log hdec _ hfail
    cases images with
    | nil => simp [loadFaces, hfail, specAfter, decodeCalls_cons, decodeCalls]
    | cons image rest => simp at hdec
  | cons first rest ih =>
    intro file post images tc data log hdec hfmt hfail
    cases images with
    | nil => simp at hdec
    | cons image others =>
      simp only [List.map_cons, List.cons.injEq] at hdec
      obtain ⟨hfile, hrest⟩ := hdec
      simp only [formatsSupported, Bool.and_eq_true, decide_eq_true_eq] at hfmt
      obtain ⟨hne, hothers⟩ := hfmt
      rw [List.cons_append, loadFaces]
      simp only [hfile, hne, if_false]
      rw [ih file post others _ _ _ hrest hothers hfail]
      simp [specAfter, decodeCalls_cons, List.append_assoc]

/-- The loop stopping at the first file whose decoded image leaves the format `None`. -/
theorem loadFaces_unsupported {F : Type} [DecidableEq F] (H : Headers F) (C : Codec F)
    (directory : String) (pre : List String) :
    ∀ (file : String) (post : List String) (images : List DecodedImage) (image : DecodedImage)
      (tc : TextureCube F) (data : List Nat) (log : List (LoaderCall F)),
      pre.map (C.decode directory) = images.map some →
      formatsSupported H C tc.m_Spec images = true →
      C.decode directory file = some image →
      (C.UpdateSpecsTextureResource (specAfter C tc.m_Spec images) image.width image.height
        image.channels).Format = H.None →
      loadFaces H C directory (pre ++ file :: post) tc data log =
        .error (Abort.Fatal
          ("Data format of " ++ C.filename directory file ++ " not supported!"),
          log ++ decodeCalls C tc.m_Flip directory (pre ++ [file])) := by
  induction pre with
  | nil =>
    intro file post images image tc data log hdec _ hok hbad
    cases images with
    | nil =>
      simp only [specAfter, List.foldl_nil] at hbad
      simp [loadFaces, hok, hbad, decodeCalls_cons, decodeCalls]
    | cons image rest => simp at hdec
  | cons first rest ih =>
    intro file post images image tc data log hdec hfmt hok hbad
    cases images with
    | nil => simp at hdec
    | cons im others =>
      simp only [List.map_cons, List.cons.injEq] at hdec
      obtain ⟨hfile, hrest⟩ := hdec
      simp only [formatsSupported, Bool.and_eq_true, decide_eq_true_eq] at hfmt
      obtain ⟨hne, hothers⟩ := hfmt
      rw [List.cons_append, loadFaces]
      simp only [hfile, hne, if_false]
      rw [ih file post others image _ _ _ hrest hothers hok (by simpa [specAfter] using hbad)]
      simp [decodeCalls_cons, List.append_assoc]

/-- When the loop ends with the buffers of all faces, every file has decoded and every
format was supported; and the loop never adds a texture creation to the log. -/
theorem loadFaces_ok {F : Type} [DecidableEq F] (H : Headers F) (C : Codec F)
    (directory : String) (files : List String) :
    ∀ (tc tc2 : TextureCube F) (data : List Nat) (log log2 : List (LoaderCall F))
      (result : Option (List Nat)),
      loadFaces H C directory files tc data log = .ok (result, tc2, log2) →
      (∀ c ∈ log, c.isCreateTexture = false) →
      (∀ c ∈ log2, c.isCreateTexture = false) ∧
      (result.isSome = true → ∃ images : List DecodedImage,
        files.map (C.decode directory) = images.map some ∧
        formatsSupported H C tc.m_Spec images = true) := by
  induction files with
  | nil =>
    intro tc tc2 data log log2 result h hlog
    simp only [loadFaces, Except.ok.injEq, Prod.mk.injEq] at h
    obtain ⟨-, -, rfl⟩ := h
    exact ⟨hlog, fun _ => ⟨[], rfl, rfl⟩⟩
  | cons file rest ih =>
    intro tc tc2 data log log2 result h hlog
    rw [loadFaces] at h
    have hcall : (C.decodeCall directory file).isCreateTexture = false := by
      unfold Codec.decodeCall
      split <;> rfl
    cases hdec : C.decode directory file with
    | none =>
      simp only [hdec, Except.ok.injEq, Prod.mk.injEq] at h
      obtain ⟨rfl, -, rfl⟩ := h
      refine ⟨?_, fun hs => by simp at hs⟩
      intro c hc
      simp only [List.mem_append, List.mem_singleton] at hc
      rcases hc with ((hc | rfl) | rfl) | rfl
      · exact hlog c hc
      · rfl
      · exact hcall
      · rfl
    | some image =>
      simp only [hdec] at h
      split at h
      · cases h
      · rename_i hne
        have hlog1 : ∀ c ∈ log ++ [LoaderCall.stbi_set_flip_vertically_on_load tc.m_Flip] ++
            [C.decodeCall directory file], c.isCreateTexture = false := by
          intro c hc
          simp only [List.mem_append, List.mem_singleton] at hc
          rcases hc with (hc | rfl) | rfl
          · exact hlog c hc
          · rfl
          · exact hcall
        obtain ⟨i1, i2⟩ := ih _ tc2 _ _ log2 result h hlog1
        refine ⟨i1, fun hs => ?_⟩
        obtain ⟨images, hi, hf⟩ := i2 hs
        refine ⟨image :: images, by simp [hdec, hi], ?_⟩
        simp only [formatsSupported, Bool.and_eq_true, decide_eq_true_eq]
        exact ⟨hne, hf⟩

/-- C16 (amended). `LoadFromFile` stops at the fatal assertion on the number of files, before
any call, when the list does not have exactly 6 entries. It creates the cube texture if and
only if the list has exactly 6 entries, every one of them decodes, and after each of them the
specification has a format other than `None`; then the calls are the six decodes in file
order, one `CreateTexture` with the six buffers in file order, and the release of the six
buffers. If a face fails to decode after faces that were usable, the function logs the
warning and returns: the calls are the decodes up to and including that face and the
warning, so no later face is decoded and no texture is created. If a face decodes but leaves
the format `None`, the function stops at the fatal format assertion after that decode. -/
theorem LoadFromFile_creates_iff {F : Type} [DecidableEq F] (H : Headers F) (C : Codec F)
    (tc : TextureCube F) (directory : String) (files : List String) :
    (files.length ≠ 6 →
      tc.LoadFromFile H C directory files = .error (Abort.Fatal fatalCubeFaces, [])) ∧
    ((∃ (tc2 : TextureCube F) (calls : List (LoaderCall F)),
        tc.LoadFromFile H C directory files = .ok (tc2, calls) ∧
        ∃ c ∈ calls, c.isCreateTexture = true) ↔
      (files.length = 6 ∧ ∃ images : List DecodedImage,
        files.map (C.decode directory) = images.map some ∧
        formatsSupported H C tc.m_Spec images = true)) ∧
    (∀ images : List DecodedImage, files.length = 6 →
      files.map (C.decode directory) = images.map some →
      formatsSupported H C tc.m_Spec images = true →
      tc.LoadFromFile H C directory files =
        .ok ({ tc with m_Spec := specAfter C tc.m_Spec images },
          decodeCalls C tc.m_Flip directory files ++
            [LoaderCall.CreateTexture (images.map (fun image => image.data))
              (specAfter C tc.m_Spec images)] ++
            (images.map (fun image => image.data)).map LoaderCall.stbi_image_free)) ∧
    (∀ (pre post : List String) (file : String) (images : List DecodedImage),
      files = pre ++ file :: post → files.length = 6 →
      pre.map (C.decode directory) = images.map some →
      formatsSupported H C tc.m_Spec images = true →
      C.decode directory file = none →
      tc.LoadFromFile H C directory files =
        .ok ({ tc with m_Spec := specAfter C tc.m_Spec images },
          decodeCalls C tc.m_Flip directory (pre ++ [file]) ++
            [LoaderCall.CORE_WARN ("Failed to load: " ++ C.filename directory file)])) ∧
    (∀ (pre post : List String) (file : String) (images : List DecodedImage)
      (image : DecodedImage),
      files = pre ++ file :: post → files.length = 6 →
      pre.map (C.decode directory) = images.map some →
      formatsSupported H C tc.m_Spec images = true →
      C.decode directory file = some image →
      (C.UpdateSpecsTextureResource (specAfter C tc.m_Spec images) image.width image.height
        image.channels).Format = H.None →
      tc.LoadFromFile H C directory files =
        .error (Abort.Fatal
          ("Data format of " ++ C.filename directory file ++ " not supported!"),
          decodeCalls C tc.m_Flip directory (pre ++ [file]))) := by
  have hall : ∀ images : List DecodedImage, files.length = 6 →
      files.map (C.decode directory) = images.map some →
      formatsSupported H C tc.m_Spec images = true →
      tc.LoadFromFile H C directory files =
        .ok ({ tc with m_Spec := specAfter C tc.m_Spec images },
          decodeCalls C tc.m_Flip directory files ++
            [LoaderCall.CreateTexture (images.map (fun image => image.data))
              (specAfter C tc.m_Spec images)] ++
            (images.map (fun image => image.data)).map LoaderCall.stbi_image_free) := by
    intro images hlen hdec hfmt
    unfold TextureCube.LoadFromFile
    rw [loadFaces_all H C directory files images tc [] [] hdec hfmt]
    simp [hlen]
  refine ⟨?_, ⟨?_, ?_⟩, hall, ?_, ?_⟩
  · intro hlen
    simp [TextureCube.LoadFromFile, hlen]
  · rintro ⟨tc2, calls, hok, c, hc, hcreate⟩
    unfold TextureCube.LoadFromFile at hok
    by_cases hlen : files.length = 6
    · refine ⟨hlen, ?_⟩
      simp only [hlen, ne_eq, not_true_eq_false, if_false] at hok
      cases hl : loadFaces H C directory files tc [] [] with
      | error e => rw [hl] at hok; cases hok
      | ok r =>
        obtain ⟨result, tc3, log3⟩ := r
        obtain ⟨no3, himg⟩ := loadFaces_ok H C directory files tc tc3 [] [] log3 result hl
          (by simp)
        rw [hl] at hok
        cases result with
        | none =>
          simp only [Except.ok.injEq, Prod.mk.injEq] at hok
          obtain ⟨-, rfl⟩ := hok
          rw [no3 c hc] at hcreate
          cases hcreate
        | some data => exact himg rfl
    · simp [hlen] at hok
  · rintro ⟨hlen, images, hdec, hfmt⟩
    refine ⟨_, _, hall images hlen hdec hfmt,
      LoaderCall.CreateTexture (images.map (fun image => image.data))
        (specAfter C tc.m_Spec images), by simp, rfl⟩
  · intro pre post file images hfiles hlen hdec hfmt hfail
    unfold TextureCube.LoadFromFile
    rw [if_neg (by simp [hlen]), hfiles,
      loadFaces_decode_failure H C directory pre file post images tc [] [] hdec hfmt hfail]
    simp
  · intro pre post file images image hfiles hlen hdec hfmt hok hbad
    unfold TextureCube.LoadFromFile
    rw [if_neg (by simp [hlen]), hfiles,
      loadFaces_unsupported H C directory pre file post images image tc [] [] hdec hfmt hok
        hbad]
    simp

/-- C16, witness: with the example codec the six face files are loaded into one
`CreateTexture` call with the buffers 1 to 6 in file order; when the third file is missing
the function returns after the warning, having decoded three files and created nothing. -/
theorem LoadFromFile_creates_iff_witness :
    (∃ (tc2 : TextureCube TextureFormat) (calls : List (LoaderCall TextureFormat)),
      exampleCube.LoadFromFile TextureFormat.headers exampleCodec "sky" exampleFaces =
        .ok (tc2, calls) ∧ ∃ c ∈ calls, c.isCreateTexture = true) ∧
    (exampleCube.LoadFromFile TextureFormat.headers exampleCodec "sky" exampleFaces).toOption.map
        (fun r => r.2.filter LoaderCall.isCreateTexture) =
      some [LoaderCall.CreateTexture [1, 2, 3, 4, 5, 6]
        { TextureFormat.attachment TextureFormat.RGBA8 TextureType.TEXTURECUBE with
          Width := 2, Height := 2 }] ∧
    (exampleCube.LoadFromFile TextureFormat.headers exampleCodec "sky" brokenFaces).toOption.map
        (fun r => r.2) =
      some [LoaderCall.stbi_set_flip_vertically_on_load true,
        LoaderCall.stbi_load "sky" "right.png",
        LoaderCall.stbi_set_flip_vertically_on_load true,
        LoaderCall.stbi_load "sky" "left.png",
        LoaderCall.stbi_set_flip_vertically_on_load true,
        LoaderCall.stbi_load "sky" "missing.png",
        LoaderCall.CORE_WARN "Failed to load: missing.png"] :=
  ⟨(LoadFromFile_creates_iff TextureFormat.headers exampleCodec exampleCube "sky"
      exampleFaces).2.1.2
      ⟨by decide,
        [{ data := 1, width := 2, height := 2, channels := 4 },
         { data := 2, width := 2, height := 2, channels := 4 },
         { data := 3, width := 2, height := 2, channels := 4 },
         { data := 4, width := 2, height := 2, channels := 4 },
         { data := 5, width := 2, height := 2, channels := 4 },
         { data := 6, width := 2, height := 2, channels := 4 }],
        by decide, by decide⟩,
    by decide, by decide⟩

/-- C16, counterexample: the list has exactly 6 entries and every one of them decodes, the
third to a single-channel image for which the helper leaves the format `None`; the function
stops at the fatal format assertion after three decodes and creates no texture. -/
theorem LoadFromFile_counterexample :
    grayFaces.length = 6 ∧
    (∀ file ∈ grayFaces, (exampleCodec.decode "sky" file).isSome = true) ∧
    exampleCube.LoadFromFile TextureFormat.headers exampleCodec "sky" grayFaces =
      .error (Abort.Fatal "Data format of gray.png not supported!",
        [LoaderCall.stbi_set_flip_vertically_on_load true,
         LoaderCall.stbi_load "sky" "right.png",
         LoaderCall.stbi_set_flip_vertically_on_load true,
         LoaderCall.stbi_load "sky" "left.png",
         LoaderCall.stbi_set_flip_vertically_on_load true,
         LoaderCall.stbi_load "sky" "gray.png"]) ∧
    ¬ ∃ (tc2 : TextureCube TextureFormat) (calls : List (LoaderCall TextureFormat)),
      exampleCube.LoadFromFile TextureFormat.headers exampleCodec "sky" grayFaces =
        .ok (tc2, calls) ∧ ∃ c ∈ calls, c.isCreateTexture = true := by
  have hrun : exampleCube.LoadFromFile TextureFormat.headers exampleCodec "sky" grayFaces =
      .error (Abort.Fatal "Data format of gray.png not supported!",
        [LoaderCall.stbi_set_flip_vertically_on_load true,
         LoaderCall.stbi_load "sky" "right.png",
         LoaderCall.stbi_set_flip_vertically_on_load true,
         LoaderCall.stbi_load "sky" "left.png",
         LoaderCall.stbi_set_flip_vertically_on_load true,
         LoaderCall.stbi_load "sky" "gray.png"]) := rfl
  refine ⟨rfl, by decide, hrun, ?_⟩
  rintro ⟨tc2, calls, hok, -⟩
  rw [hrun] at hok
  cases hok

end Proofs

end BasicRenderer
